import Mathlib

/-!
Verification development for the BambuStudio G-code writer
(src/libslic3r/GCodeWriter.cpp).

The C++ code is shallowly embedded: doubles become rationals, the mutable
GCodeWriter object becomes an explicit state record threaded through every
operation, and each member function becomes a Lean function returning the
emitted command text together with the updated state.  Definitions follow
the source line by line; the few entities whose source file is not part of
the given material (the Extruder tracker, the export-digit constants, the
config get_at accessor) are modelled from the specification and marked as
such in their doc comments.
-/

namespace Slic3r

/-- EPSILON from libslic3r.h: 1e-4, used for all near-zero comparisons. -/
def EPSILON : ℚ := 1 / 10000

/-- Rounding half away from zero, the semantics of C std::round used by
GCodeFormatter::emit_axis when scaling a value to an integer. -/
def roundAway (q : ℚ) : ℤ :=
  if q < 0 then -(Int.floor (-q + 1 / 2)) else Int.floor (q + 1 / 2)

/-- Modelled from the spec: ConfigOptionFloats::get_at (source not under
src/): element i of the per-tool value list, falling back to the first
element when the index is out of range and to 0 when the list is empty. -/
def get_at (l : List ℚ) (i : ℕ) : ℚ :=
  l.getD i (l.headD 0)

/-- The firmware dialect enum (GCodeFlavor). -/
inductive GCodeFlavor
  | gcfRepRapSprinter | gcfRepRapFirmware | gcfRepetier | gcfTeacup
  | gcfMakerWare | gcfMarlinLegacy | gcfMarlinFirmware | gcfKlipper
  | gcfSailfish | gcfMach3 | gcfMachinekit | gcfSmoothie | gcfNoExtrusion
  deriving DecidableEq, Repr

export GCodeFlavor (gcfRepRapSprinter gcfRepRapFirmware gcfRepetier gcfTeacup
  gcfMakerWare gcfMarlinLegacy gcfMarlinFirmware gcfKlipper gcfSailfish
  gcfMach3 gcfMachinekit gcfSmoothie gcfNoExtrusion)

/-- The lift style tag (LiftType in GCodeWriter.hpp). -/
inductive LiftType
  | NormalLift | SpiralLift | SlopeLift
  deriving DecidableEq, Repr

/-- A 3D point with rational coordinates (Vec3d in the source). -/
structure Vec3 where
  x : ℚ
  y : ℚ
  z : ℚ
  deriving DecidableEq, Repr

/-- GCodeWriter::full_gcode_comment, a compile-time constant set to false
in the source, gating all human-readable trailing comments. -/
def full_gcode_comment : Bool := false

/-- GCodeFormatter::emit_comment: appends a comment fragment only when the
verbosity flag is enabled and the comment is non-empty. -/
def emit_comment (allow : Bool) (c : String) : String :=
  if allow ∧ c ≠ "" then " ; " ++ c else ""

/-- Removes the trailing zero characters of a digit run, as the trimming
loop at the end of GCodeFormatter::emit_axis does (the loop runs at most
`digits` times, which is exactly the length of the fractional run it is
applied to, so it can never eat into the integer part). -/
def trimTrailingZeros (l : List Char) : List Char :=
  (l.reverse.dropWhile (fun c => c = '0')).reverse

/-- The final guard of GCodeFormatter::emit_axis: if after the trimming
nothing remains of the rendered number, or only a minus sign remains, a
'0' character is appended. -/
def finalGuard (signed : List Char) : List Char :=
  if signed = [] ∨ signed.getLast? = some '-' then signed ++ ['0'] else signed

/-- The mantissa produced by GCodeFormatter::emit_axis from the already
rounded scaled integer: the integer is rendered (sign, then decimal digit
characters), the digit run is left-padded with zeros to at least `digits`
characters, a decimal point is inserted `digits` places from the right;
trailing fractional zeros and a bare trailing decimal point are trimmed
(the trimming loop runs at most `digits` times, exactly the length of the
fractional run); the final guard then repairs an empty or sign-only
result. -/
def mantissaOfInt (vInt : ℤ) (digits : ℕ) : List Char :=
  let neg : Bool := vInt < 0
  let mag : List Char := Nat.toDigits 10 vInt.natAbs
  let padded : List Char :=
    if mag.length < digits then List.replicate (digits - mag.length) '0' ++ mag else mag
  let intPart : List Char := padded.take (padded.length - digits)
  let fracPart : List Char := padded.drop (padded.length - digits)
  let fracTrimmed : List Char := trimTrailingZeros fracPart
  let core : List Char := intPart ++ (if fracTrimmed = [] then [] else '.' :: fracTrimmed)
  finalGuard ((if neg then ['-'] else []) ++ core)

/-- The mantissa produced by GCodeFormatter::emit_axis for value v with
the given fixed number of decimal digits: v is scaled by 10^digits,
rounded half away from zero (std::round), and rendered by mantissaOfInt. -/
def emit_axis_mantissa (v : ℚ) (digits : ℕ) : List Char :=
  mantissaOfInt (roundAway (v * (10 : ℚ) ^ digits)) digits

/-- GCodeFormatter::emit_axis: a space, the axis letter, then the mantissa. -/
def emit_axis (axis : Char) (v : ℚ) (digits : ℕ) : String :=
  String.mk (' ' :: axis :: emit_axis_mantissa v digits)

/-- Modelled from the spec: the fixed decimal-digit count used for the
X/Y/Z/F axes (XYZF_EXPORT_DIGITS, declared in the GCodeWriter header which
is not part of the given sources). -/
def XYZF_EXPORT_DIGITS : ℕ := 3

/-- Modelled from the spec: the fixed decimal-digit count used for the E
axis (E_EXPORT_DIGITS, declared in the GCodeWriter header which is not
part of the given sources). -/
def E_EXPORT_DIGITS : ℕ := 5

/-- Modelled from the spec: the per-tool extrusion/retraction tracker
(class Extruder; its source file is not part of the given material, only
its call sites in GCodeWriter.cpp are).  Per §3/§4.2 of the spec it owns
the tool identity, the cumulative extruded length E, the currently
retracted length and the recorded restart-extra amount, together with the
per-tool retraction parameters. -/
structure Extruder where
  id : ℕ
  extruder_id : ℕ
  E : ℚ
  retracted : ℚ
  restart_extra : ℚ
  retraction_length : ℚ
  retract_restart_extra_v : ℚ
  retract_before_wipe : ℚ
  retract_speed : ℚ
  deretract_speed : ℚ
  retract_length_toolchange : ℚ
  retract_restart_extra_toolchange : ℚ
  deriving DecidableEq, Repr

/-- Modelled from the spec: Extruder::extrude — adds the delta to the
cumulative extruded length E and returns the new E. -/
def Extruder.extrude (e : Extruder) (dE : ℚ) : ℚ × Extruder :=
  let e' := { e with E := e.E + dE }
  (e'.E, e')

/-- Modelled from the spec: Extruder::retract(length, restart_extra) — if
the tool is not already retracted by at least `length`, decreases E by the
outstanding amount, increases the retracted amount accordingly and records
the restart-extra amount; returns the actual (nonnegative) E delta applied,
zero when already sufficiently retracted. -/
def Extruder.retract (e : Extruder) (length restartExtra : ℚ) : ℚ × Extruder :=
  if 0 < max 0 (length - e.retracted) then
    (max 0 (length - e.retracted),
      { e with
        E := e.E - max 0 (length - e.retracted)
        retracted := e.retracted + max 0 (length - e.retracted)
        restart_extra := restartExtra })
  else (0, e)

/-- Modelled from the spec: Extruder::unretract — returns E to its
pre-retraction value plus the recorded restart extra, returning the applied
delta (zero if not currently retracted). -/
def Extruder.unretract (e : Extruder) : ℚ × Extruder :=
  if 0 < e.retracted then
    let dE := e.retracted + e.restart_extra
    (dE, { e with E := e.E + dE, retracted := 0, restart_extra := 0 })
  else (0, e)

/-- Modelled from the spec: Extruder::reset_E — zeroes the cumulative
extruded length without affecting anything else. -/
def Extruder.reset_E (e : Extruder) : Extruder :=
  { e with E := 0 }

/-- The configuration slice of GCodeWriter (PrintConfig values read by the
modelled operations). -/
structure GCodeConfig where
  gcode_flavor : GCodeFlavor
  use_relative_e_distances : Bool
  use_firmware_retraction : Bool
  travel_speed : List ℚ
  travel_speed_z : List ℚ
  z_hop : List ℚ
  retract_lift_above : List ℚ
  retract_lift_below : List ℚ
  prime_tower_lift_height : ℚ
  prime_tower_lift_speed : ℚ
  accel_to_decel_enable : Bool
  accel_to_decel_factor : ℚ
  filament_map : List ℕ
  deriving DecidableEq, Repr

/-- Modelled from the spec: get_extruder_index(config, filament_id) (source
not under src/) — maps a logical filament id to its physical extruder
index. -/
def get_extruder_index (cfg : GCodeConfig) (filament_id : ℕ) : ℕ :=
  cfg.filament_map.getD filament_id 0

/-- The mutable state of a GCodeWriter, with the member names of the
source.  m_curr collapses the m_curr_extruder_id /
m_curr_filament_extruder pointer pair into an optional index into
m_filament_extruders (none before the first tool selection). -/
structure GCodeWriter where
  config : GCodeConfig
  m_filament_extruders : List Extruder
  m_curr : Option ℕ
  multiple_extruders : Bool
  m_single_extruder_multi_material : Bool
  m_is_bbl_printer : Bool
  m_pos : Vec3
  m_lifted : ℚ
  m_to_lift : ℚ
  m_to_lift_type : LiftType
  m_position_clear : Bool
  m_x_offset : ℚ
  m_y_offset : ℚ
  m_acceleration : ℕ
  m_max_acceleration : ℕ
  m_last_acceleration : ℕ
  m_travel_accelerations : List ℕ
  m_first_layer_travel_accelerations : List ℕ
  m_is_first_layer : Bool
  m_last_bed_temperature : ℤ
  m_last_bed_temperature_reached : Bool
  deriving DecidableEq, Repr

/-- GCodeWriter::filament(): the currently selected tool tracker, if any. -/
def filament (s : GCodeWriter) : Option Extruder :=
  match s.m_curr with
  | none => none
  | some i => s.m_filament_extruders.get? i

/-- Writes back an updated tracker for the currently selected tool. -/
def set_filament (s : GCodeWriter) (e : Extruder) : GCodeWriter :=
  match s.m_curr with
  | none => s
  | some i => { s with m_filament_extruders := s.m_filament_extruders.set i e }

/-- GCodeWriter::set_temperature (const in the source: it reads but never
writes writer state, so it is a pure function of the writer and the
arguments).  tool = -1 means no tool argument. -/
def set_temperature (s : GCodeWriter) (temperature : ℕ) (wait : Bool) (tool : ℤ) : String :=
  let fl := s.config.gcode_flavor
  if wait ∧ (fl = gcfMakerWare ∨ fl = gcfSailfish) then ""
  else
    let code : String :=
      if wait ∧ fl ≠ gcfTeacup ∧ fl ≠ gcfRepRapFirmware then "M109"
      else if fl = gcfRepRapFirmware then "G10" else "M104"
    let comment : String :=
      if wait ∧ fl ≠ gcfTeacup ∧ fl ≠ gcfRepRapFirmware then
        "set nozzle temperature and wait for it to be reached"
      else "set nozzle temperature"
    let argLetter : String := if fl = gcfMach3 ∨ fl = gcfMachinekit then "P" else "S"
    let multiple_tools : Bool := s.multiple_extruders ∧ ¬s.m_single_extruder_multi_material
    let toolPart : String :=
      if tool ≠ -1 ∧ (multiple_tools ∨ fl = gcfMakerWare ∨ fl = gcfSailfish) then
        (if fl = gcfRepRapFirmware then " P" else " T") ++ toString tool
      else ""
    let base : String :=
      code ++ " " ++ argLetter ++ toString temperature ++ toolPart ++ " ; " ++ comment ++ "\n"
    if (fl = gcfTeacup ∨ fl = gcfRepRapFirmware) ∧ wait then
      base ++ "M116 ; wait for temperature to be reached\n"
    else base

/-- GCodeWriter::set_bed_temperature: suppressed when the same request is
already recorded as satisfied; otherwise records the request and emits
M190 (wait) or M140. -/
def set_bed_temperature (s : GCodeWriter) (temperature : ℤ) (wait : Bool) :
    String × GCodeWriter :=
  if temperature = s.m_last_bed_temperature ∧ (¬wait ∨ s.m_last_bed_temperature_reached) then
    ("", s)
  else if wait then
    ("M190 S" ++ toString temperature ++ " ; set bed temperature and wait for it to be reached\n",
      { s with m_last_bed_temperature := temperature, m_last_bed_temperature_reached := wait })
  else
    ("M140 S" ++ toString temperature ++ " ; set bed temperature\n",
      { s with m_last_bed_temperature := temperature, m_last_bed_temperature_reached := wait })

/-- GCodeWriter::set_chamber_temperature: emits unconditionally (the
function keeps no record of the last chamber request); the wait variant
wraps M191 in an auxiliary-fan pulse. -/
def set_chamber_temperature (s : GCodeWriter) (temperature : ℤ) (wait : Bool) :
    String × GCodeWriter :=
  if wait then
    ("M106 P2 S255 \n" ++ "M191 S" ++ toString temperature ++
      " ;set chamber_temperature and wait for it to be reached\n" ++ "M106 P2 S0 \n", s)
  else
    ("M141 S" ++ toString temperature ++ ";set chamber_temperature\n", s)

/-- The clamp applied by GCodeWriter::set_acceleration_impl: requested
values above a positive configured maximum are reduced to the maximum. -/
def clampAccel (s : GCodeWriter) (acceleration : ℕ) : ℕ :=
  if 0 < s.m_max_acceleration ∧ s.m_max_acceleration < acceleration then
    s.m_max_acceleration
  else acceleration

/-- The dialect-specific acceleration command text emitted by
GCodeWriter::set_acceleration_impl for a (clamped, nonzero, fresh) value.
The Klipper accel-to-decel companion value is a double in the source,
printed through an ostream; its textual rendering is modelled with
toString on the exact rational value. -/
def accel_gcode (cfg : GCodeConfig) (a : ℕ) : String :=
  if cfg.gcode_flavor = gcfRepetier then
    "M201 X" ++ toString a ++ " Y" ++ toString a ++
      emit_comment full_gcode_comment "adjust acceleration" ++ "\n" ++
      "M202 X" ++ toString a ++ " Y" ++ toString a ++
      emit_comment full_gcode_comment "adjust acceleration" ++ "\n"
  else if cfg.gcode_flavor = gcfRepRapFirmware then
    "M204 P" ++ toString a ++ emit_comment full_gcode_comment "adjust acceleration" ++ "\n"
  else if cfg.gcode_flavor = gcfMarlinFirmware then
    "M204 P" ++ toString a ++ emit_comment full_gcode_comment "adjust acceleration" ++ "\n"
  else if cfg.gcode_flavor = gcfKlipper ∧ cfg.accel_to_decel_enable then
    "SET_VELOCITY_LIMIT ACCEL_TO_DECEL=" ++ toString ((a : ℚ) * cfg.accel_to_decel_factor / 100) ++
      emit_comment full_gcode_comment "adjust ACCEL_TO_DECEL" ++
      "\nM204 S" ++ toString a ++ emit_comment full_gcode_comment "adjust acceleration" ++ "\n"
  else
    "M204 S" ++ toString a ++ emit_comment full_gcode_comment "adjust acceleration" ++ "\n"

/-- GCodeWriter::set_acceleration_impl: clamps to the configured maximum,
suppresses zero and unchanged values, otherwise records the value as last
emitted and produces the dialect command. -/
def set_acceleration_impl (s : GCodeWriter) (acceleration : ℕ) : String × GCodeWriter :=
  if clampAccel s acceleration = 0 ∨ clampAccel s acceleration = s.m_last_acceleration then
    ("", s)
  else
    (accel_gcode s.config (clampAccel s acceleration),
      { s with m_last_acceleration := clampAccel s acceleration })

/-- GCodeWriter::reset_last_acceleration: forces the next acceleration
value to be re-emitted. -/
def reset_last_acceleration (s : GCodeWriter) : GCodeWriter :=
  { s with m_last_acceleration := 0 }

/-- GCodeWriter::set_travel_acceleration() (the emitting overload): picks
the per-tool travel acceleration (first-layer table when on the first
layer) and routes it through set_acceleration_impl. -/
def set_travel_acceleration_str (s : GCodeWriter) : String × GCodeWriter :=
  if (if s.m_is_first_layer then s.m_first_layer_travel_accelerations
      else s.m_travel_accelerations) = [] then ("", s)
  else
    match filament s with
    | none => ("", s)
    | some e =>
      set_acceleration_impl s
        ((if s.m_is_first_layer then s.m_first_layer_travel_accelerations
          else s.m_travel_accelerations).getD e.extruder_id 0)

/-- The state component of set_travel_acceleration (the emitted text
discarded). -/
def set_travel_acceleration_state (s : GCodeWriter) : GCodeWriter :=
  (set_travel_acceleration_str s).2

/-- GCodeWriter::set_extrude_acceleration. -/
def set_extrude_acceleration_str (s : GCodeWriter) : String × GCodeWriter :=
  set_acceleration_impl s s.m_acceleration

/-- GCodeWriter::reset_e(force): for Mach3/MakerWare/Sailfish it returns
immediately; otherwise it zeroes the current tool's E (skipping everything
when E is already zero and the reset is not forced) and emits G92 E0
unless relative extrusion distances are configured. -/
def reset_e (s : GCodeWriter) (force : Bool) : String × GCodeWriter :=
  let fl := s.config.gcode_flavor
  if fl = gcfMach3 ∨ fl = gcfMakerWare ∨ fl = gcfSailfish then ("", s)
  else
    match filament s with
    | some e =>
      if e.E = 0 ∧ ¬force then ("", s)
      else
        let s' := set_filament s e.reset_E
        (if ¬s'.config.use_relative_e_distances then "G92 E0\n" else "", s')
    | none =>
      (if ¬s.config.use_relative_e_distances then "G92 E0\n" else "", s)

/-- GCodeWriter::toolchange_prefix. -/
def toolchange_prefix_str (cfg : GCodeConfig) : String :=
  if cfg.gcode_flavor = gcfMakerWare then "M135 T"
  else if cfg.gcode_flavor = gcfSailfish then "M108 T"
  else "T"

/-- The index computed by std::lower_bound over the id-sorted tracker
list: the first position whose id is not below the searched id. -/
def lowerBoundIdx (t : ℕ) : List Extruder → ℕ
  | [] => 0
  | e :: es => if t ≤ e.id then 0 else lowerBoundIdx t es + 1

/-- GCodeWriter::toolchange(filament_id): selects the tracker found by
lower_bound (the source asserts that the id is present; an absent id is
undefined behaviour in C++ and is modelled as a no-op), then — only when
the writer is configured for multiple extruders — emits the dialect
toolchange command followed by a forced extrusion reset. -/
def toolchange (s : GCodeWriter) (filament_id : ℕ) : String × GCodeWriter :=
  if lowerBoundIdx filament_id s.m_filament_extruders < s.m_filament_extruders.length then
    let s1 := { s with m_curr := some (lowerBoundIdx filament_id s.m_filament_extruders) }
    if s1.multiple_extruders then
      let head : String :=
        if s1.m_is_bbl_printer then "M1020 S" ++ toString filament_id
        else toolchange_prefix_str s1.config ++ toString filament_id
      (head ++ emit_comment full_gcode_comment "change extruder" ++ "\n" ++ (reset_e s1 true).1,
        (reset_e s1 true).2)
    else ("", s1)
  else ("", s)

/-- GCodeWriter::need_toolchange: true when no tool is selected yet or the
selected tool differs from the requested one. -/
def need_toolchange (s : GCodeWriter) (filament_id : ℕ) : Bool :=
  match filament s with
  | none => true
  | some e => e.id ≠ filament_id

/-- GCodeWriter::set_extruder: toolchange only when needed. -/
def set_extruder (s : GCodeWriter) (filament_id : ℕ) : String × GCodeWriter :=
  if need_toolchange s filament_id then toolchange s filament_id else ("", s)

/-- GCodeWriter::will_move_z: with a positive applied lift, a target
between the nominal (unlifted) Z and the current Z needs no physical move;
without a lift, a target within EPSILON of the current Z needs no move. -/
def will_move_z (s : GCodeWriter) (z : ℚ) : Bool :=
  if 0 < s.m_lifted then
    if s.m_pos.z - s.m_lifted ≤ z ∧ z ≤ s.m_pos.z then false else true
  else if |s.m_pos.z - z| < EPSILON then false
  else true

/-- GCodeWriter::_travel_to_z: records the new Z, chooses the Z travel
speed (falling back to the XY travel speed, overridden by the prime-tower
lift speed during a toolchange) and emits a G1 Z move, with a travel
acceleration command possibly prepended. -/
def travel_to_z_aux (s : GCodeWriter) (z : ℚ) (comment : String) (tool_change : Bool) :
    String × GCodeWriter :=
  match filament s with
  | none => ("", s)
  | some e =>
    let s1 := { s with m_pos := { s.m_pos with z := z } }
    let idx := get_extruder_index s1.config e.id
    let speed0 := get_at s1.config.travel_speed_z idx
    let speed1 := if speed0 = 0 then get_at s1.config.travel_speed idx else speed0
    let speed := if tool_change ∧ 0 < s1.config.prime_tower_lift_speed then
        s1.config.prime_tower_lift_speed
      else speed1
    ((set_travel_acceleration_str s1).1 ++ "G1" ++ emit_axis 'Z' z XYZF_EXPORT_DIGITS ++
      emit_axis 'F' (speed * 60) XYZF_EXPORT_DIGITS ++
      emit_comment full_gcode_comment comment ++ "\n",
      (set_travel_acceleration_str s1).2)

/-- GCodeWriter::travel_to_z: when will_move_z is false the move is
absorbed into the lift accounting (a residual within EPSILON of zero is
clamped to exactly zero) and nothing is emitted; otherwise the lift is
cancelled and a real Z move is emitted. -/
def travel_to_z (s : GCodeWriter) (z : ℚ) (comment : String) : String × GCodeWriter :=
  if ¬ will_move_z s z then
    let nominal := s.m_pos.z - s.m_lifted
    let l := s.m_lifted - (z - nominal)
    let l := if |l| < EPSILON then 0 else l
    ("", { s with m_lifted := l })
  else
    ((set_travel_acceleration_str { s with m_lifted := 0 }).1 ++
        (travel_to_z_aux (set_travel_acceleration_str { s with m_lifted := 0 }).2 z comment false).1,
      (travel_to_z_aux (set_travel_acceleration_str { s with m_lifted := 0 }).2 z comment false).2)

/-- GCodeWriter::travel_to_xy: records the new XY position, marks the
position as known, and emits a G1 XY move at travel speed with a travel
acceleration command possibly prepended. -/
def travel_to_xy (s : GCodeWriter) (p : ℚ × ℚ) (comment : String) : String × GCodeWriter :=
  let s1 := { s with
    m_pos := { s.m_pos with x := p.1, y := p.2 }
    m_position_clear := true }
  match filament s1 with
  | none => ("", s1)
  | some e =>
    ((set_travel_acceleration_str s1).1 ++ "G1" ++
      emit_axis 'X' (p.1 - s1.m_x_offset) XYZF_EXPORT_DIGITS ++
      emit_axis 'Y' (p.2 - s1.m_y_offset) XYZF_EXPORT_DIGITS ++
      emit_axis 'F' (get_at s1.config.travel_speed (get_extruder_index s1.config e.id) * 60)
        XYZF_EXPORT_DIGITS ++
      emit_comment full_gcode_comment comment ++ "\n",
      (set_travel_acceleration_str s1).2)

/-- The state transition of GCodeWriter::travel_to_xyz.  The emitted text
of the pending-lift branch is not modelled (the spiral and slope lift
moves involve pi, square roots and arctangents), but every assignment to
writer state is transcribed: the pending-lift branch materializes the
pending lift into m_lifted when the destination is below the lifted
height, always clears the pending lift, and moves to the (possibly lift-
extended) destination; the lift-absorbing branch shrinks m_lifted by the
Z difference, clamping a residual within EPSILON to zero, and performs an
XY-only travel; the remaining branch cancels the lift and performs a real
XYZ move.  Travel acceleration bookkeeping is applied once, matching the
idempotent effect of the calls embedded in the emitted-text expressions. -/
def travel_to_xyz_state (s : GCodeWriter) (point : Vec3) : GCodeWriter :=
  match filament s with
  | none => s
  | some _ =>
    if EPSILON < |s.m_to_lift| then
      { set_travel_acceleration_state
          { (if (¬s.m_position_clear ∨ s.m_pos ≠ point) ∧ point.z < s.m_to_lift + s.m_pos.z
             then { s with m_lifted := s.m_to_lift + s.m_pos.z - point.z }
             else s) with
            m_to_lift := 0 } with
        m_pos :=
          if (¬s.m_position_clear ∨ s.m_pos ≠ point) ∧ point.z < s.m_to_lift + s.m_pos.z
          then { point with z := s.m_to_lift + s.m_pos.z } else point
        m_position_clear := true }
    else if ¬ will_move_z s point.z then
      (travel_to_xy
        { s with
          m_lifted :=
            if |s.m_lifted - (point.z - (s.m_pos.z - s.m_lifted))| < EPSILON then 0
            else s.m_lifted - (point.z - (s.m_pos.z - s.m_lifted))
          m_position_clear := true }
        (point.x, point.y) "").2
    else
      set_travel_acceleration_state
        { s with m_lifted := 0, m_pos := point, m_position_clear := true }

/-- The target lift computed at the top of lazy_lift and eager_lift: the
configured z-hop (overridden by the prime-tower lift height during a
toolchange) when the current Z lies inside the configured band, zero
otherwise. -/
def target_lift_of (s : GCodeWriter) (e : Extruder) (tool_change : Bool) : ℚ :=
  if get_at s.config.retract_lift_above e.extruder_id ≤ s.m_pos.z ∧
      s.m_pos.z ≤ get_at s.config.retract_lift_below e.extruder_id then
    if tool_change ∧ 0 < s.config.prime_tower_lift_height then
      s.config.prime_tower_lift_height
    else get_at s.config.z_hop e.id
  else 0

/-- GCodeWriter::lazy_lift: only from the fully unlifted state
(m_lifted = 0 and m_to_lift = 0) with a positive target: in spiral-vase
mode the lift is applied immediately as a Z move, otherwise it is recorded
as pending with its style tag. -/
def lazy_lift (s : GCodeWriter) (lift_type : LiftType) (spiral_vase tool_change : Bool) :
    String × GCodeWriter :=
  match filament s with
  | none => ("", s)
  | some e =>
    let target_lift := target_lift_of s e tool_change
    if s.m_lifted = 0 ∧ s.m_to_lift = 0 ∧ 0 < target_lift then
      if spiral_vase then
        let s := { s with m_lifted := target_lift }
        travel_to_z_aux s (s.m_pos.z + target_lift) "lift Z" tool_change
      else ("", { s with m_to_lift := target_lift, m_to_lift_type := lift_type })
    else ("", s)

/-- The state transition of GCodeWriter::eager_lift.  The emitted text is
not modelled (the spiral move involves pi), but the state effect is: when
the outstanding difference between the target and the applied lift is
below EPSILON nothing changes; otherwise the current Z is raised by the
difference (through the embedded lift move, whichever style), m_lifted
becomes the target and the pending lift is cleared, with travel
acceleration bookkeeping applied once. -/
def eager_lift_state (s : GCodeWriter) (_lift_type : LiftType) (tool_change : Bool) :
    GCodeWriter :=
  match filament s with
  | none => s
  | some e =>
    let target_lift := target_lift_of s e tool_change
    let to_lift := target_lift - s.m_lifted
    if to_lift < EPSILON then s
    else
      let s1 := set_travel_acceleration_state
        { s with m_pos := { s.m_pos with z := s.m_pos.z + to_lift } }
      { s1 with m_lifted := target_lift, m_to_lift := 0 }

/-- GCodeWriter::unlift: a positive applied lift is unwound with a real Z
move back to the nominal height; the pending lift is discarded
unconditionally. -/
def unlift (s : GCodeWriter) : String × GCodeWriter :=
  if 0 < s.m_lifted then
    ((travel_to_z_aux s (s.m_pos.z - s.m_lifted) "restore layer Z" false).1,
      { (travel_to_z_aux s (s.m_pos.z - s.m_lifted) "restore layer Z" false).2 with
        m_lifted := 0, m_to_lift := 0 })
  else ("", { s with m_to_lift := 0 })

/-- GCodeWriter::extrude_to_xy: records the new XY position, feeds the
extrusion delta to the tool tracker (unless suppressed) and emits a G1 XY
move carrying the tracker's new E, with a print acceleration command
possibly prepended. -/
def extrude_to_xy (s : GCodeWriter) (p : ℚ × ℚ) (dE : ℚ) (comment : String)
    (force_no_extrusion : Bool) : String × GCodeWriter :=
  let s1 := { s with m_pos := { s.m_pos with x := p.1, y := p.2 } }
  match filament s1 with
  | none => ("", s1)
  | some e =>
    let e1 := if ¬force_no_extrusion then (e.extrude dE).2 else e
    let s2 := if ¬force_no_extrusion then set_filament s1 e1 else s1
    ((set_extrude_acceleration_str s2).1 ++ "G1" ++
      emit_axis 'X' (p.1 - s2.m_x_offset) XYZF_EXPORT_DIGITS ++
      emit_axis 'Y' (p.2 - s2.m_y_offset) XYZF_EXPORT_DIGITS ++
      (if ¬force_no_extrusion then emit_axis 'E' e1.E E_EXPORT_DIGITS else "") ++
      emit_comment full_gcode_comment comment ++ "\n",
      (set_extrude_acceleration_str s2).2)

/-- GCodeWriter::extrude_arc_to_xy: as extrude_to_xy but emitting a G2/G3
arc with the I/J center offset. -/
def extrude_arc_to_xy (s : GCodeWriter) (p center_offset : ℚ × ℚ) (dE : ℚ) (is_ccw : Bool)
    (comment : String) (force_no_extrusion : Bool) : String × GCodeWriter :=
  let s1 := { s with m_pos := { s.m_pos with x := p.1, y := p.2 } }
  match filament s1 with
  | none => ("", s1)
  | some e =>
    let e1 := if ¬force_no_extrusion then (e.extrude dE).2 else e
    let s2 := if ¬force_no_extrusion then set_filament s1 e1 else s1
    ((set_extrude_acceleration_str s2).1 ++ (if is_ccw then "G3" else "G2") ++
      emit_axis 'X' (p.1 - s2.m_x_offset) XYZF_EXPORT_DIGITS ++
      emit_axis 'Y' (p.2 - s2.m_y_offset) XYZF_EXPORT_DIGITS ++
      emit_axis 'I' center_offset.1 XYZF_EXPORT_DIGITS ++
      emit_axis 'J' center_offset.2 XYZF_EXPORT_DIGITS ++
      (if ¬force_no_extrusion then emit_axis 'E' e1.E E_EXPORT_DIGITS else "") ++
      emit_comment full_gcode_comment comment ++ "\n",
      (set_extrude_acceleration_str s2).2)

/-- GCodeWriter::extrude_to_xyz: records the new position, cancels any
applied lift, feeds the delta to the tracker and emits a G1 XYZ move. -/
def extrude_to_xyz (s : GCodeWriter) (point : Vec3) (dE : ℚ) (comment : String)
    (force_no_extrusion : Bool) : String × GCodeWriter :=
  let s1 := { s with m_pos := point, m_lifted := 0 }
  match filament s1 with
  | none => ("", s1)
  | some e =>
    let e1 := if ¬force_no_extrusion then (e.extrude dE).2 else e
    let s2 := if ¬force_no_extrusion then set_filament s1 e1 else s1
    ((set_extrude_acceleration_str s2).1 ++ "G1" ++
      emit_axis 'X' (point.x - s2.m_x_offset) XYZF_EXPORT_DIGITS ++
      emit_axis 'Y' (point.y - s2.m_y_offset) XYZF_EXPORT_DIGITS ++
      emit_axis 'Z' point.z XYZF_EXPORT_DIGITS ++
      (if ¬force_no_extrusion then emit_axis 'E' e1.E E_EXPORT_DIGITS else "") ++
      emit_comment full_gcode_comment comment ++ "\n",
      (set_extrude_acceleration_str s2).2)

/-- GCodeWriter::_retract(length, restart_extra, comment): with firmware
retraction the length is forced to 1 and a firmware retract code is
emitted; otherwise, when the tracker reports a nonzero applied delta, a G1
E move at retract speed is emitted; MakerWare appends an extruder-off
command unconditionally. -/
def retract_aux (s : GCodeWriter) (length restartExtra : ℚ) (comment : String) :
    String × GCodeWriter :=
  match filament s with
  | none => ("", s)
  | some e =>
    let len1 := if s.config.use_firmware_retraction then 1 else length
    let dE := (e.retract len1 restartExtra).1
    let e1 := (e.retract len1 restartExtra).2
    let s1 := set_filament s e1
    let gcode : String :=
      if dE ≠ 0 then
        if s1.config.use_firmware_retraction then
          if s1.config.gcode_flavor = gcfMachinekit then "G22 ;retract" else "G10 ;retract \n"
        else
          "G1" ++ emit_axis 'E' e1.E E_EXPORT_DIGITS ++
            emit_axis 'F' (e1.retract_speed * 60) XYZF_EXPORT_DIGITS ++
            emit_comment full_gcode_comment comment ++ "\n"
      else ""
    (if s1.config.gcode_flavor = gcfMakerWare then gcode ++ "M103 ; extruder off\n" else gcode, s1)

/-- GCodeWriter::retract(before_wipe): scales the configured retraction
length and restart extra by the before-wipe factor and delegates. -/
def retract (s : GCodeWriter) (before_wipe : Bool) : String × GCodeWriter :=
  match filament s with
  | none => ("", s)
  | some e =>
    let factor : ℚ := if before_wipe then e.retract_before_wipe else 1
    retract_aux s (factor * e.retraction_length) (factor * e.retract_restart_extra_v) "retract"

/-- GCodeWriter::retract_for_toolchange(before_wipe). -/
def retract_for_toolchange (s : GCodeWriter) (before_wipe : Bool) : String × GCodeWriter :=
  match filament s with
  | none => ("", s)
  | some e =>
    let factor : ℚ := if before_wipe then e.retract_before_wipe else 1
    retract_aux s (factor * e.retract_length_toolchange)
      (factor * e.retract_restart_extra_toolchange) "retract for toolchange"

/-- The GCodeWriter operations quantified over by the lift-state claims. -/
inductive Op
  | lazyLift (lift_type : LiftType) (spiral_vase tool_change : Bool)
  | eagerLift (lift_type : LiftType) (tool_change : Bool)
  | travelToXY (p : ℚ × ℚ)
  | travelToZ (z : ℚ)
  | travelToXYZ (p : Vec3)
  | extrudeToXY (p : ℚ × ℚ) (dE : ℚ) (force_no_extrusion : Bool)
  | extrudeArcToXY (p c : ℚ × ℚ) (dE : ℚ) (is_ccw force_no_extrusion : Bool)
  | extrudeToXYZ (p : Vec3) (dE : ℚ) (force_no_extrusion : Bool)
  | unliftOp
  | retractOp (before_wipe : Bool)
  | toolchangeOp (filament_id : ℕ)
  deriving DecidableEq, Repr

/-- One operation applied to the writer state. -/
def step (s : GCodeWriter) : Op → GCodeWriter
  | .lazyLift lt sv tc => (lazy_lift s lt sv tc).2
  | .eagerLift lt tc => eager_lift_state s lt tc
  | .travelToXY p => (travel_to_xy s p "").2
  | .travelToZ z => (travel_to_z s z "").2
  | .travelToXYZ p => travel_to_xyz_state s p
  | .extrudeToXY p dE f => (extrude_to_xy s p dE "" f).2
  | .extrudeArcToXY p c dE ccw f => (extrude_arc_to_xy s p c dE ccw "" f).2
  | .extrudeToXYZ p dE f => (extrude_to_xyz s p dE "" f).2
  | .unliftOp => (unlift s).2
  | .retractOp bw => (retract s bw).2
  | .toolchangeOp fid => (toolchange s fid).2

/-- A sequence of operations applied left to right. -/
def run (s : GCodeWriter) (ops : List Op) : GCodeWriter :=
  ops.foldl step s

/-! ## General helper lemmas -/

theorem string_eq_empty_of_length (s : String) (h : s.length = 0) : s = "" := by
  cases s with
  | mk data =>
    cases data with
    | nil => rfl
    | cons c cs => simp [String.length] at h

theorem append_ne_empty_left (a b : String) (ha : a ≠ "") : a ++ b ≠ "" := by
  intro hc
  apply ha
  apply string_eq_empty_of_length
  have h1 : (a ++ b).length = 0 := by rw [hc]; rfl
  rw [String.length_append] at h1
  omega

theorem append_ne_empty_right (a b : String) (hb : b ≠ "") : a ++ b ≠ "" := by
  intro hc
  apply hb
  apply string_eq_empty_of_length
  have h1 : (a ++ b).length = 0 := by rw [hc]; rfl
  rw [String.length_append] at h1
  omega

/-! ## Formatter lemmas (claim C8) -/

theorem finalGuard_ne_nil (l : List Char) : finalGuard l ≠ [] := by
  unfold finalGuard
  split
  · simp
  · next h =>
    push_neg at h
    exact h.1

theorem finalGuard_ne_minus (l : List Char) : finalGuard l ≠ ['-'] := by
  unfold finalGuard
  split
  · intro hc
    have hl : l.length + 1 = 1 := by simpa using congrArg List.length hc
    have : l = [] := List.length_eq_zero.mp (by omega)
    subst this
    simp at hc
  · next h =>
    push_neg at h
    intro hc
    exact h.2 (by rw [hc]; rfl)

theorem mantissaOfInt_ne (i : ℤ) (d : ℕ) :
    mantissaOfInt i d ≠ [] ∧ mantissaOfInt i d ≠ ['-'] :=
  ⟨finalGuard_ne_nil _, finalGuard_ne_minus _⟩

theorem mantissaOfInt_zero (d : ℕ) (hd : d ≤ 9) : mantissaOfInt 0 d = ['0'] := by
  interval_cases d <;> decide

/-- C8: Formatter non-empty mantissa — for every digit count 0-9 and every
finite value, the numeric formatter (emit_axis) never renders the number
as an empty string or as a lone minus sign after trimming trailing zero
digits and a bare decimal point; any value that rounds to zero at the
given precision is rendered as exactly the single character 0. -/
theorem C8_formatter_mantissa (v : ℚ) (digits : ℕ) (hd : digits ≤ 9) :
    emit_axis_mantissa v digits ≠ [] ∧ emit_axis_mantissa v digits ≠ ['-'] ∧
      (roundAway (v * (10 : ℚ) ^ digits) = 0 → emit_axis_mantissa v digits = ['0']) := by
  refine ⟨(mantissaOfInt_ne _ _).1, (mantissaOfInt_ne _ _).2, fun h0 => ?_⟩
  unfold emit_axis_mantissa
  rw [h0]
  exact mantissaOfInt_zero digits hd

/-- Witness for C8 at v = 7/2 with 3 digits. -/
theorem C8_witness :
    (3 : ℕ) ≤ 9 ∧
      (emit_axis_mantissa (7 / 2) 3 ≠ [] ∧ emit_axis_mantissa (7 / 2) 3 ≠ ['-'] ∧
        (roundAway ((7 / 2 : ℚ) * (10 : ℚ) ^ (3 : ℕ)) = 0 →
          emit_axis_mantissa (7 / 2) 3 = ['0'])) :=
  ⟨by decide, C8_formatter_mantissa (7 / 2) 3 (by decide)⟩

/-! ## Acceleration lemmas (claim C3) -/

theorem clampAccel_last_irrelevant (s : GCodeWriter) (a A : ℕ) :
    clampAccel { s with m_last_acceleration := a } A = clampAccel s A := by
  simp [clampAccel]

theorem sai_eq (s : GCodeWriter) (A : ℕ) :
    set_acceleration_impl s A =
      if clampAccel s A = 0 ∨ clampAccel s A = s.m_last_acceleration then ("", s)
      else (accel_gcode s.config (clampAccel s A),
        { s with m_last_acceleration := clampAccel s A }) := rfl

theorem accel_gcode_ne_empty (cfg : GCodeConfig) (a : ℕ) : accel_gcode cfg a ≠ "" := by
  unfold accel_gcode
  repeat' split
  all_goals exact append_ne_empty_right _ _ (by decide)

theorem sai_after_reset (s : GCodeWriter) (A : ℕ) :
    ((set_acceleration_impl (reset_last_acceleration s) A).1 = "" ↔ clampAccel s A = 0) := by
  have hcl : clampAccel (reset_last_acceleration s) A = clampAccel s A := by
    simp [clampAccel, reset_last_acceleration]
  by_cases h0 : clampAccel s A = 0
  · rw [sai_eq, if_pos (by rw [hcl]; exact Or.inl h0)]
    exact ⟨fun _ => h0, fun _ => rfl⟩
  · have hng : ¬(clampAccel (reset_last_acceleration s) A = 0 ∨
        clampAccel (reset_last_acceleration s) A =
          (reset_last_acceleration s).m_last_acceleration) := by
      rw [hcl]
      simp only [reset_last_acceleration]
      push_neg
      exact ⟨h0, h0⟩
    rw [sai_eq, if_neg hng]
    constructor
    · intro h
      exact absurd (hcl ▸ h) (accel_gcode_ne_empty _ _)
    · intro h
      exact absurd h h0

/-- C3: Acceleration clamp and suppression — the numeric acceleration
value emitted by set_acceleration_impl never exceeds a positive configured
maximum; a clamped value equal to the last emitted one, or zero, yields
the empty string; an immediately repeated request emits nothing the second
time, while an interposed reset_last_acceleration forces re-emission of
any nonzero clamped value. -/
theorem C3_acceleration_clamp (s : GCodeWriter) (A : ℕ)
    (hM : 0 < s.m_max_acceleration) :
    ((set_acceleration_impl s A).1 = "" ∨
      ((set_acceleration_impl s A).1 = accel_gcode s.config (clampAccel s A) ∧
        clampAccel s A ≤ s.m_max_acceleration)) ∧
    ((clampAccel s A = 0 ∨ clampAccel s A = s.m_last_acceleration) →
      (set_acceleration_impl s A).1 = "") ∧
    (set_acceleration_impl (set_acceleration_impl s A).2 A).1 = "" ∧
    ((set_acceleration_impl (reset_last_acceleration (set_acceleration_impl s A).2) A).1 = ""
      ↔ clampAccel s A = 0) := by
  have hle : clampAccel s A ≤ s.m_max_acceleration := by
    unfold clampAccel
    split
    · exact le_rfl
    · next h =>
      push_neg at h
      exact le_of_not_lt (fun hlt => absurd (h hM) (not_le.mpr hlt))
  by_cases hc : clampAccel s A = 0 ∨ clampAccel s A = s.m_last_acceleration
  · have h1 : set_acceleration_impl s A = ("", s) := by rw [sai_eq, if_pos hc]
    refine ⟨Or.inl (by rw [h1]), fun _ => by rw [h1], ?_, ?_⟩
    · rw [h1, sai_eq, if_pos hc]
    · rw [h1]
      exact sai_after_reset s A
  · have h1 : set_acceleration_impl s A =
        (accel_gcode s.config (clampAccel s A),
          { s with m_last_acceleration := clampAccel s A }) := by
      rw [sai_eq, if_neg hc]
    refine ⟨Or.inr ⟨by rw [h1], hle⟩, fun h => absurd h hc, ?_, ?_⟩
    · rw [h1, sai_eq]
      rw [if_pos (Or.inr (by rw [clampAccel_last_irrelevant]))]
    · rw [h1]
      rw [show clampAccel s A =
          clampAccel { s with m_last_acceleration := clampAccel s A } A from
        (clampAccel_last_irrelevant s _ A).symm]
      exact sai_after_reset _ A

/-! ## Concrete states used by witnesses and counterexamples -/

/-- A concrete tool tracker used by witnesses and counterexamples. -/
def demoExtruder : Extruder :=
  { id := 0, extruder_id := 0, E := 0, retracted := 0, restart_extra := 0,
    retraction_length := 1, retract_restart_extra_v := 0, retract_before_wipe := 1,
    retract_speed := 30, deretract_speed := 30, retract_length_toolchange := 2,
    retract_restart_extra_toolchange := 0 }

/-- A concrete configuration used by witnesses and counterexamples. -/
def demoConfig : GCodeConfig :=
  { gcode_flavor := gcfMarlinLegacy, use_relative_e_distances := false,
    use_firmware_retraction := false, travel_speed := [120], travel_speed_z := [12],
    z_hop := [1], retract_lift_above := [0], retract_lift_below := [100],
    prime_tower_lift_height := 0, prime_tower_lift_speed := 0,
    accel_to_decel_enable := false, accel_to_decel_factor := 50, filament_map := [0] }

/-- A concrete writer state used by witnesses and counterexamples. -/
def demoWriter : GCodeWriter :=
  { config := demoConfig, m_filament_extruders := [demoExtruder], m_curr := some 0,
    multiple_extruders := false, m_single_extruder_multi_material := false,
    m_is_bbl_printer := false, m_pos := ⟨10, 10, 2⟩, m_lifted := 0, m_to_lift := 0,
    m_to_lift_type := LiftType.NormalLift, m_position_clear := true, m_x_offset := 0,
    m_y_offset := 0, m_acceleration := 0, m_max_acceleration := 1000,
    m_last_acceleration := 0, m_travel_accelerations := [],
    m_first_layer_travel_accelerations := [], m_is_first_layer := false,
    m_last_bed_temperature := 0, m_last_bed_temperature_reached := false }

/-- Witness for C3: maximum 1000, requested 5000, fresh last value. -/
theorem C3_witness :
    0 < demoWriter.m_max_acceleration ∧
      (((set_acceleration_impl demoWriter 5000).1 = "" ∨
        ((set_acceleration_impl demoWriter 5000).1 =
            accel_gcode demoWriter.config (clampAccel demoWriter 5000) ∧
          clampAccel demoWriter 5000 ≤ demoWriter.m_max_acceleration)) ∧
      ((clampAccel demoWriter 5000 = 0 ∨
          clampAccel demoWriter 5000 = demoWriter.m_last_acceleration) →
        (set_acceleration_impl demoWriter 5000).1 = "") ∧
      (set_acceleration_impl (set_acceleration_impl demoWriter 5000).2 5000).1 = "" ∧
      ((set_acceleration_impl
            (reset_last_acceleration (set_acceleration_impl demoWriter 5000).2) 5000).1 = ""
        ↔ clampAccel demoWriter 5000 = 0)) :=
  ⟨by decide, C3_acceleration_clamp demoWriter 5000 (by decide)⟩

/-! ## Filament bookkeeping lemmas -/

theorem filament_set_filament (s : GCodeWriter) (e e' : Extruder)
    (hf : filament s = some e) : filament (set_filament s e') = some e' := by
  rcases hc : s.m_curr with _ | i
  · rw [filament, hc] at hf
    simp at hf
  · have hf' : s.m_filament_extruders.get? i = some e := by
      rw [filament, hc] at hf
      exact hf
    have hlt : i < s.m_filament_extruders.length := by
      rw [List.get?_eq_some] at hf'
      exact hf'.1
    simp only [set_filament, filament, hc]
    simp only [List.get?_eq_getElem?]
    rw [List.getElem?_set_self]
    simp [hlt]

theorem set_filament_config (s : GCodeWriter) (e : Extruder) :
    (set_filament s e).config = s.config := by
  unfold set_filament
  cases s.m_curr <;> simp

/-! ## Temperature claims (C5, C6) -/

/-- Counterexample to C5 as stated: set_temperature is declared const in
the source and records nothing, so an identical repeated nozzle
temperature-and-wait request returns the identical non-empty command
instead of the empty string.  Because the call cannot modify the writer,
the value below is precisely what the second of two back-to-back
identical requests returns. -/
theorem C5_counterexample :
    set_temperature demoWriter 200 true (-1) =
        "M109 S200 ; set nozzle temperature and wait for it to be reached\n" ∧
      set_temperature demoWriter 200 true (-1) ≠ "" := by
  constructor <;> decide

/-- C5 (amended): the bed request is idempotent — repeating an identical
bed temperature-and-wait request emits nothing the second time, and the
first request emits a non-empty command exactly when the request is not
already recorded as satisfied; the nozzle set_temperature call, by
contrast, keeps no record and returns the same (non-empty, except for the
MakerWare/Sailfish wait case) command on every call. -/
theorem C5_temperature_idempotence (s : GCodeWriter) (T : ℤ) (temp : ℕ) (wait : Bool)
    (tool : ℤ) :
    (set_bed_temperature (set_bed_temperature s T wait).2 T wait).1 = "" ∧
    ((set_bed_temperature s T wait).1 ≠ "" ↔
      ¬(T = s.m_last_bed_temperature ∧ (¬wait ∨ s.m_last_bed_temperature_reached))) ∧
    (¬(wait ∧ (s.config.gcode_flavor = gcfMakerWare ∨ s.config.gcode_flavor = gcfSailfish)) →
      set_temperature s temp wait tool ≠ "") := by
  have hbt2 : ∀ s' : GCodeWriter,
      set_bed_temperature s' T wait =
        if T = s'.m_last_bed_temperature ∧ (¬wait ∨ s'.m_last_bed_temperature_reached) then
          ("", s')
        else if wait then
          ("M190 S" ++ toString T ++ " ; set bed temperature and wait for it to be reached\n",
            { s' with m_last_bed_temperature := T, m_last_bed_temperature_reached := wait })
        else
          ("M140 S" ++ toString T ++ " ; set bed temperature\n",
            { s' with m_last_bed_temperature := T, m_last_bed_temperature_reached := wait }) :=
    fun _ => rfl
  refine ⟨?_, ?_, ?_⟩
  · by_cases hc : T = s.m_last_bed_temperature ∧ (¬wait ∨ s.m_last_bed_temperature_reached)
    · have h1 : set_bed_temperature s T wait = ("", s) := by rw [hbt2, if_pos hc]
      rw [h1, h1]
    · have h1 : (set_bed_temperature s T wait).2 =
          { s with m_last_bed_temperature := T, m_last_bed_temperature_reached := wait } := by
        rw [hbt2, if_neg hc]
        by_cases hw : wait = true
        · rw [if_pos hw]
        · rw [if_neg hw]
      rw [h1, hbt2]
      rw [if_pos ⟨rfl, by cases wait <;> simp⟩]
  · by_cases hc : T = s.m_last_bed_temperature ∧ (¬wait ∨ s.m_last_bed_temperature_reached)
    · rw [hbt2, if_pos hc]
      constructor
      · intro h
        exact absurd rfl h
      · intro hn
        exact absurd hc hn
    · rw [hbt2, if_neg hc]
      refine ⟨fun _ => hc, fun _ => ?_⟩
      by_cases hw : wait = true
      · rw [if_pos hw]
        exact append_ne_empty_right ("M190 S" ++ toString T)
          " ; set bed temperature and wait for it to be reached\n" (by decide)
      · rw [if_neg hw]
        exact append_ne_empty_right ("M140 S" ++ toString T)
          " ; set bed temperature\n" (by decide)
  · intro hng
    simp only [set_temperature]
    rw [if_neg hng]
    split
    · apply append_ne_empty_right
      decide
    · apply append_ne_empty_right
      decide

/-- Witness for C5 on the demo writer (Marlin flavor, bed 60 with wait,
nozzle 210 without wait). -/
theorem C5_witness :
    ((set_bed_temperature (set_bed_temperature demoWriter 60 true).2 60 true).1 = "" ∧
      ((set_bed_temperature demoWriter 60 true).1 ≠ "" ↔
        ¬((60 : ℤ) = demoWriter.m_last_bed_temperature ∧
          (¬true ∨ demoWriter.m_last_bed_temperature_reached))) ∧
      (¬(true ∧ (demoWriter.config.gcode_flavor = gcfMakerWare ∨
          demoWriter.config.gcode_flavor = gcfSailfish)) →
        set_temperature demoWriter 210 true (-1) ≠ "")) :=
  C5_temperature_idempotence demoWriter 60 210 true (-1)

/-- Counterexample to C6 as stated: set_chamber_temperature keeps no
record of the last chamber request, so the repeated identical request
emits the very same non-empty command again instead of nothing. -/
theorem C6_counterexample :
    (set_chamber_temperature (set_chamber_temperature demoWriter 40 false).2 40 false).1 =
        "M141 S40;set chamber_temperature\n" ∧
      (set_chamber_temperature (set_chamber_temperature demoWriter 40 false).2 40 false).1
        ≠ "" := by
  constructor <;> decide

/-- C6 (amended): the chamber-temperature operation is stateless — it
leaves the writer unchanged, so a repeated identical request emits exactly
the same command again, and that command is never empty. -/
theorem C6_chamber_reemits (s : GCodeWriter) (T : ℤ) (wait : Bool) :
    (set_chamber_temperature s T wait).2 = s ∧
    (set_chamber_temperature (set_chamber_temperature s T wait).2 T wait).1 =
      (set_chamber_temperature s T wait).1 ∧
    (set_chamber_temperature s T wait).1 ≠ "" := by
  unfold set_chamber_temperature
  by_cases hw : wait = true
  · rw [if_pos hw, if_pos hw]
    exact ⟨rfl, rfl, append_ne_empty_right _ _ (by decide)⟩
  · rw [if_neg hw, if_neg hw]
    exact ⟨rfl, rfl, append_ne_empty_right _ _ (by decide)⟩

/-! ## Relative-mode reset (C9) -/

/-- The cumulative extruded length of the currently selected tool. -/
def currE (s : GCodeWriter) : Option ℚ := (filament s).map Extruder.E

/-- Counterexample to C9 as stated: with relative extrusion distances
configured and a current tool whose E is 5, the forced reset_e returns the
empty string as claimed but zeroes the tracker's E instead of leaving it
unchanged. -/
theorem C9_counterexample :
    ({ demoWriter with
        config := { demoConfig with use_relative_e_distances := true },
        m_filament_extruders := [{ demoExtruder with E := 5 }] } :
        GCodeWriter).config.use_relative_e_distances = true ∧
    currE { demoWriter with
        config := { demoConfig with use_relative_e_distances := true },
        m_filament_extruders := [{ demoExtruder with E := 5 }] } = some 5 ∧
    (reset_e { demoWriter with
        config := { demoConfig with use_relative_e_distances := true },
        m_filament_extruders := [{ demoExtruder with E := 5 }] } true).1 = "" ∧
    currE (reset_e { demoWriter with
        config := { demoConfig with use_relative_e_distances := true },
        m_filament_extruders := [{ demoExtruder with E := 5 }] } true).2 = some 0 := by
  refine ⟨by decide, by decide, by decide, by decide⟩

/-- C9 (amended): with relative extrusion distances configured, a forced
reset_e emits nothing, but — except for the Mach3/MakerWare/Sailfish
flavors, which return before touching the tracker — it still zeroes the
current tool's cumulative extruded length E rather than leaving it
unchanged. -/
theorem C9_relative_reset (s : GCodeWriter) (e : Extruder)
    (hrel : s.config.use_relative_e_distances = true)
    (hf : filament s = some e)
    (hfl : ¬(s.config.gcode_flavor = gcfMach3 ∨ s.config.gcode_flavor = gcfMakerWare ∨
      s.config.gcode_flavor = gcfSailfish)) :
    (reset_e s true).1 = "" ∧ currE (reset_e s true).2 = some 0 := by
  unfold reset_e
  rw [if_neg hfl, hf]
  simp only
  rw [if_neg (by simp)]
  constructor
  · rw [set_filament_config]
    simp [hrel]
  · unfold currE
    rw [filament_set_filament s e e.reset_E hf]
    rfl

/-- Witness for C9 on a relative-mode Marlin writer with E = 5. -/
theorem C9_witness :
    ({ demoWriter with
        config := { demoConfig with use_relative_e_distances := true },
        m_filament_extruders := [{ demoExtruder with E := 5 }] } :
        GCodeWriter).config.use_relative_e_distances = true ∧
    ((reset_e { demoWriter with
        config := { demoConfig with use_relative_e_distances := true },
        m_filament_extruders := [{ demoExtruder with E := 5 }] } true).1 = "" ∧
      currE (reset_e { demoWriter with
        config := { demoConfig with use_relative_e_distances := true },
        m_filament_extruders := [{ demoExtruder with E := 5 }] } true).2 = some 0) :=
  ⟨by decide,
    C9_relative_reset _ { demoExtruder with E := 5 } (by decide) (by decide) (by decide)⟩

/-! ## Retraction idempotence (C7) -/

/-- A writer whose single tool is already fully retracted by the
configured (positive) retraction length. -/
def retractedWriter : GCodeWriter :=
  { demoWriter with m_filament_extruders := [{ demoExtruder with retracted := 1 }] }

/-- Counterexample to C7 as stated: a tool state with positive configured
retraction length that is already retracted by that length makes the first
retract call return the empty string (the claim requires a non-empty
command on the first of two calls for every such tool state). -/
theorem C7_counterexample :
    filament retractedWriter = some { demoExtruder with retracted := 1 } ∧
    0 < ({ demoExtruder with retracted := 1 } : Extruder).retraction_length ∧
    (retract retractedWriter false).1 = "" := by
  have hf : filament retractedWriter = some { demoExtruder with retracted := 1 } := by decide
  refine ⟨hf, by norm_num [demoExtruder], ?_⟩
  simp only [retract, retract_aux, hf]
  norm_num [demoExtruder, retractedWriter, demoWriter, demoConfig, Extruder.retract,
    set_filament, max_self]
  decide

/-- C7 (amended): for a tool that is not yet retracted by the requested
length (the before-wipe factor applied), with firmware retraction off and
a flavor other than MakerWare (which appends an extruder-off line to every
retract), the first retract call emits a non-empty extrusion-delta command
and the immediately repeated call returns the empty string. -/
theorem C7_retract_idempotence (s : GCodeWriter) (before_wipe : Bool) (e : Extruder)
    (hf : filament s = some e)
    (hfw : s.config.use_firmware_retraction = false)
    (hmw : s.config.gcode_flavor ≠ gcfMakerWare)
    (hlen : e.retracted <
      (if before_wipe then e.retract_before_wipe else 1) * e.retraction_length) :
    (retract s before_wipe).1 ≠ "" ∧ (retract (retract s before_wipe).2 before_wipe).1 = "" := by
  set F : ℚ := if before_wipe then e.retract_before_wipe else 1 with hF
  set L : ℚ := F * e.retraction_length with hL
  set R : ℚ := F * e.retract_restart_extra_v with hR
  have hpos : (0 : ℚ) < L - e.retracted := by
    rw [hL]
    linarith [hlen]
  have hmax : max 0 (L - e.retracted) = L - e.retracted := max_eq_right (le_of_lt hpos)
  set e1 : Extruder := { e with
    E := e.E - (L - e.retracted)
    retracted := e.retracted + (L - e.retracted)
    restart_extra := R } with he1
  have hr : e.retract L R = (L - e.retracted, e1) := by
    unfold Extruder.retract
    rw [hmax, if_pos hpos]
  have haux : retract_aux s L R "retract" =
      ("G1" ++ emit_axis 'E' e1.E E_EXPORT_DIGITS ++
        emit_axis 'F' (e1.retract_speed * 60) XYZF_EXPORT_DIGITS ++
        emit_comment full_gcode_comment "retract" ++ "\n",
        set_filament s e1) := by
    simp only [retract_aux, hf, hfw, Bool.false_eq_true, if_false, hr, set_filament_config]
    rw [if_neg hmw, if_pos (ne_of_gt hpos)]
  have hcall : retract s before_wipe = retract_aux s L R "retract" := by
    simp only [retract, hf, hF, hL, hR]
  have hmain : (retract s before_wipe).1 ≠ "" := by
    rw [hcall, haux]
    exact append_ne_empty_right _ "\n" (by decide)
  refine ⟨hmain, ?_⟩
  have hs2 : (retract s before_wipe).2 = set_filament s e1 := by rw [hcall, haux]
  rw [hs2]
  have hf2 : filament (set_filament s e1) = some e1 := filament_set_filament s e e1 hf
  have hcfg : (set_filament s e1).config = s.config := set_filament_config s e1
  have hret1 : e1.retracted = L := by
    rw [he1]
    simp [add_sub_cancel]
  have hr2 : e1.retract L R = (0, e1) := by
    unfold Extruder.retract
    rw [hret1]
    simp
  have hcall2 : retract (set_filament s e1) before_wipe = retract_aux (set_filament s e1) L R "retract" := by
    simp only [retract, hf2, he1, hF, hL, hR]
  rw [hcall2]
  simp only [retract_aux, hf2, set_filament_config, hfw, Bool.false_eq_true, if_false, hr2]
  rw [if_neg hmw]
  simp

/-- Witness for C7 on the demo writer (fresh tool, retraction length 1). -/
theorem C7_witness :
    filament demoWriter = some demoExtruder ∧
    demoWriter.config.use_firmware_retraction = false ∧
    demoWriter.config.gcode_flavor ≠ gcfMakerWare ∧
    demoExtruder.retracted <
      (if false then demoExtruder.retract_before_wipe else 1) * demoExtruder.retraction_length ∧
    ((retract demoWriter false).1 ≠ "" ∧
      (retract (retract demoWriter false).2 false).1 = "") :=
  ⟨by decide, by decide, by decide, by norm_num [demoExtruder],
    C7_retract_idempotence demoWriter false demoExtruder (by decide) (by decide) (by decide)
      (by norm_num [demoExtruder])⟩

/-! ## Toolchange necessity (C4) -/

theorem lowerBoundIdx_finds (t : ℕ) (l : List Extruder)
    (hs : List.Pairwise (fun a b => a.id ≤ b.id) l)
    (hm : ∃ e ∈ l, e.id = t) :
    ∃ h : lowerBoundIdx t l < l.length, (l.get ⟨lowerBoundIdx t l, h⟩).id = t := by
  induction l with
  | nil => simp at hm
  | cons a l ih =>
    rcases hm with ⟨e, he, hid⟩
    rw [List.pairwise_cons] at hs
    by_cases hta : t ≤ a.id
    · have ha : a.id = t := by
        rcases List.mem_cons.mp he with rfl | hmem
        · exact hid
        · have := hs.1 e hmem
          omega
      rw [lowerBoundIdx, if_pos hta]
      exact ⟨Nat.succ_pos _, ha⟩
    · have hmem : e ∈ l := by
        rcases List.mem_cons.mp he with rfl | hmem
        · exact absurd (le_of_eq hid.symm) hta
        · exact hmem
      rcases ih hs.2 ⟨e, hmem, hid⟩ with ⟨h, hg⟩
      rw [lowerBoundIdx, if_neg hta]
      exact ⟨Nat.succ_lt_succ h, hg⟩

theorem reset_e_filament_id (s : GCodeWriter) (force : Bool) (e : Extruder)
    (hf : filament s = some e) :
    (filament (reset_e s force).2).map Extruder.id = some e.id := by
  by_cases hfl : s.config.gcode_flavor = gcfMach3 ∨ s.config.gcode_flavor = gcfMakerWare ∨
      s.config.gcode_flavor = gcfSailfish
  · have h1 : reset_e s force = ("", s) := by
      unfold reset_e
      rw [if_pos hfl]
    rw [h1]
    simp [hf]
  · unfold reset_e
    rw [if_neg hfl, hf]
    dsimp only
    split
    · simp [hf]
    · rw [filament_set_filament s e e.reset_E hf]
      simp [Extruder.reset_E]

/-- A writer with one configured tool (id 0) and no tool selected yet;
because its only tool id is 0 it is not configured for multiple
extruders. -/
def singleWriter : GCodeWriter := { demoWriter with m_curr := none }

/-- Counterexample to C4 as stated: with the single-tool configuration
(only tool id 0, so multiple_extruders is false) and no tool selected yet,
set_extruder(0) needs a toolchange and does select tool 0, yet returns the
empty string, because toolchange emits nothing for single-extruder
setups. -/
theorem C4_counterexample :
    need_toolchange singleWriter 0 = true ∧
    demoExtruder ∈ singleWriter.m_filament_extruders ∧ demoExtruder.id = 0 ∧
    (set_extruder singleWriter 0).1 = "" := by
  exact ⟨by decide, by decide, by decide, by decide⟩

/-- C4 (amended): over an id-sorted configured tool set containing t, and
provided the writer is configured for multiple extruders (some configured
tool id is positive — otherwise toolchange deliberately emits nothing),
set_extruder(t) returns a non-empty toolchange command iff t differs from
the currently selected tool (or none is selected), and after the call the
currently selected tool is t. -/
theorem C4_toolchange_necessity (s : GCodeWriter) (t : ℕ) (e0 : Extruder)
    (hs : List.Pairwise (fun a b => a.id ≤ b.id) s.m_filament_extruders)
    (hmem : e0 ∈ s.m_filament_extruders) (hid : e0.id = t)
    (hmult : s.multiple_extruders = true) :
    ((set_extruder s t).1 ≠ "" ↔ need_toolchange s t = true) ∧
    (filament (set_extruder s t).2).map Extruder.id = some t := by
  rcases lowerBoundIdx_finds t s.m_filament_extruders hs ⟨e0, hmem, hid⟩ with ⟨hlt, hget⟩
  by_cases hn : need_toolchange s t = true
  · have hse : set_extruder s t = toolchange s t := by
      rw [set_extruder, if_pos hn]
    have hf1 : filament { s with m_curr := some (lowerBoundIdx t s.m_filament_extruders) } =
        some (s.m_filament_extruders.get ⟨lowerBoundIdx t s.m_filament_extruders, hlt⟩) := by
      rw [filament]
      exact List.get?_eq_get hlt
    have htool : toolchange s t =
        ((if s.m_is_bbl_printer then "M1020 S" ++ toString t
            else toolchange_prefix_str s.config ++ toString t) ++
          emit_comment full_gcode_comment "change extruder" ++ "\n" ++
          (reset_e { s with m_curr := some (lowerBoundIdx t s.m_filament_extruders) } true).1,
          (reset_e { s with m_curr := some (lowerBoundIdx t s.m_filament_extruders) } true).2) := by
      rw [toolchange]
      rw [if_pos hlt]
      simp only
      rw [if_pos hmult]
    refine ⟨?_, ?_⟩
    · rw [hse, htool]
      simp only [hn, iff_true]
      apply append_ne_empty_left
      apply append_ne_empty_right _ "\n" (by decide)
    · rw [hse, htool]
      have := reset_e_filament_id
        { s with m_curr := some (lowerBoundIdx t s.m_filament_extruders) } true _ hf1
      rw [this, hget]
  · have hse : set_extruder s t = ("", s) := by
      rw [set_extruder, if_neg hn]
    rw [hse]
    have hB : need_toolchange s t = false := by
      cases hb : need_toolchange s t
      · rfl
      · exact absurd hb hn
    refine ⟨by simp [hB], ?_⟩
    rcases hfc : filament s with _ | e
    · rw [need_toolchange, hfc] at hB
      simp at hB
    · rw [need_toolchange, hfc] at hB
      simp only [decide_eq_false_iff_not, not_not] at hB
      simp [hfc, hB]

/-- A writer with two configured tools (ids 0 and 1, so multiple
extruders), tool 0 currently selected. -/
def dualWriter : GCodeWriter :=
  { demoWriter with
    m_filament_extruders := [demoExtruder, { demoExtruder with id := 1 }],
    multiple_extruders := true }

/-- Witness for C4: selecting tool 1 while tool 0 is current on the dual
writer. -/
theorem C4_witness :
    { demoExtruder with id := 1 } ∈ dualWriter.m_filament_extruders ∧
    ({ demoExtruder with id := 1 } : Extruder).id = 1 ∧
    dualWriter.multiple_extruders = true ∧
    (((set_extruder dualWriter 1).1 ≠ "" ↔ need_toolchange dualWriter 1 = true) ∧
      (filament (set_extruder dualWriter 1).2).map Extruder.id = some 1) :=
  ⟨by decide, by decide, by decide,
    C4_toolchange_necessity dualWriter 1 { demoExtruder with id := 1 } (by decide)
      (by decide) (by decide) (by decide)⟩

/-! ## State-effect lemmas for the lift invariants -/

theorem sai_snd (s : GCodeWriter) (a : ℕ) :
    (set_acceleration_impl s a).2 = s ∨
      (set_acceleration_impl s a).2 = { s with m_last_acceleration := clampAccel s a } := by
  rw [sai_eq]
  split
  · exact Or.inl rfl
  · exact Or.inr rfl

theorem stas_snd (s : GCodeWriter) :
    (set_travel_acceleration_str s).2 = s ∨
      ∃ a, (set_travel_acceleration_str s).2 = { s with m_last_acceleration := a } := by
  by_cases hta : (if s.m_is_first_layer = true then s.m_first_layer_travel_accelerations
      else s.m_travel_accelerations) = []
  · unfold set_travel_acceleration_str
    rw [if_pos hta]
    exact Or.inl rfl
  · unfold set_travel_acceleration_str
    rw [if_neg hta]
    cases hf : filament s with
    | none =>
      simp [hf]
    | some e =>
      simp only [hf]
      rcases sai_snd s ((if s.m_is_first_layer = true then s.m_first_layer_travel_accelerations
          else s.m_travel_accelerations).getD e.extruder_id 0) with h | h
      · exact Or.inl h
      · exact Or.inr ⟨_, h⟩

theorem stas_fields (s : GCodeWriter) :
    (set_travel_acceleration_str s).2.m_lifted = s.m_lifted ∧
    (set_travel_acceleration_str s).2.m_to_lift = s.m_to_lift ∧
    (set_travel_acceleration_str s).2.config = s.config ∧
    (set_travel_acceleration_str s).2.m_pos = s.m_pos ∧
    filament (set_travel_acceleration_str s).2 = filament s := by
  rcases stas_snd s with h | ⟨a, h⟩ <;> rw [h] <;> exact ⟨rfl, rfl, rfl, rfl, rfl⟩

theorem seas_fields (s : GCodeWriter) :
    (set_extrude_acceleration_str s).2.m_lifted = s.m_lifted ∧
    (set_extrude_acceleration_str s).2.m_to_lift = s.m_to_lift ∧
    (set_extrude_acceleration_str s).2.config = s.config ∧
    filament (set_extrude_acceleration_str s).2 = filament s := by
  rcases sai_snd s s.m_acceleration with h | h <;>
    · unfold set_extrude_acceleration_str
      rw [h]
      exact ⟨rfl, rfl, rfl, rfl⟩

theorem set_filament_fields (s : GCodeWriter) (e : Extruder) :
    (set_filament s e).m_lifted = s.m_lifted ∧
    (set_filament s e).m_to_lift = s.m_to_lift ∧
    (set_filament s e).config = s.config := by
  unfold set_filament
  cases s.m_curr <;> exact ⟨rfl, rfl, rfl⟩

theorem reset_e_fields (s : GCodeWriter) (force : Bool) :
    (reset_e s force).2.m_lifted = s.m_lifted ∧
    (reset_e s force).2.m_to_lift = s.m_to_lift ∧
    (reset_e s force).2.config = s.config := by
  simp only [reset_e]
  split
  · exact ⟨rfl, rfl, rfl⟩
  · split
    · split
      · exact ⟨rfl, rfl, rfl⟩
      · exact set_filament_fields _ _
    · exact ⟨rfl, rfl, rfl⟩

theorem travel_to_z_aux_state (s : GCodeWriter) (z : ℚ) (c : String) (tc : Bool) :
    (travel_to_z_aux s z c tc).2.m_lifted = s.m_lifted ∧
    (travel_to_z_aux s z c tc).2.m_to_lift = s.m_to_lift ∧
    (travel_to_z_aux s z c tc).2.config = s.config ∧
    filament (travel_to_z_aux s z c tc).2 = filament s := by
  simp only [travel_to_z_aux]
  split
  · exact ⟨rfl, rfl, rfl, rfl⟩
  · exact ⟨(stas_fields _).1, (stas_fields _).2.1, (stas_fields _).2.2.1,
      (stas_fields _).2.2.2.2⟩

theorem travel_to_z_aux_pos (s : GCodeWriter) (z : ℚ) (c : String) (tc : Bool) (e : Extruder)
    (he : filament s = some e) :
    (travel_to_z_aux s z c tc).2.m_pos = { s.m_pos with z := z } := by
  simp only [travel_to_z_aux, he]
  exact (stas_fields _).2.2.2.1

theorem travel_to_z_aux_ne (s : GCodeWriter) (z : ℚ) (c : String) (tc : Bool) (e : Extruder)
    (he : filament s = some e) :
    (travel_to_z_aux s z c tc).1 ≠ "" := by
  simp only [travel_to_z_aux, he]
  exact append_ne_empty_right _ "\n" (by decide)

/-! ## Travel-to-Z lift absorption (C2) -/

theorem travel_to_z_absorb (s : GCodeWriter) (z : ℚ) (c : String)
    (h : ¬ will_move_z s z = true) :
    travel_to_z s z c = ("",
      { s with m_lifted :=
          if |s.m_lifted - (z - (s.m_pos.z - s.m_lifted))| < EPSILON then 0
          else s.m_lifted - (z - (s.m_pos.z - s.m_lifted)) }) := by
  unfold travel_to_z
  rw [if_pos h]

theorem travel_to_z_move (s : GCodeWriter) (z : ℚ) (c : String)
    (hw : will_move_z s z = true) (hf : (filament s).isSome) :
    (travel_to_z s z c).1 ≠ "" ∧ (travel_to_z s z c).2.m_lifted = 0 := by
  have h1 : travel_to_z s z c =
      ((set_travel_acceleration_str { s with m_lifted := 0 }).1 ++
        (travel_to_z_aux (set_travel_acceleration_str { s with m_lifted := 0 }).2 z c false).1,
        (travel_to_z_aux (set_travel_acceleration_str { s with m_lifted := 0 }).2 z c false).2) := by
    unfold travel_to_z
    rw [if_neg (by simp [hw])]
  rcases Option.isSome_iff_exists.mp hf with ⟨e, he⟩
  have hfil2 : filament (set_travel_acceleration_str { s with m_lifted := 0 }).2 = some e := by
    rw [(stas_fields _).2.2.2.2]
    exact he
  constructor
  · rw [h1]
    exact append_ne_empty_right _ _ (travel_to_z_aux_ne _ z c false e hfil2)
  · rw [h1]
    rw [(travel_to_z_aux_state _ z c false).1, (stas_fields _).1]

/-- C2: Lift-absorbing travel — for a writer with a positive applied lift
and no pending lift (and a selected tool, as the C++ code dereferences the
current tool unconditionally on the emitting path), a requested Z between
the nominal height and the lifted height emits nothing and shrinks
m_lifted by exactly z minus the nominal Z, a residual within EPSILON of
zero being clamped to exactly zero; any other requested Z emits a real Z
move and zeroes m_lifted. -/
theorem C2_travel_to_z_absorbs_lift (s : GCodeWriter) (z : ℚ)
    (hl : 0 < s.m_lifted) (_hp : s.m_to_lift = 0) (hf : (filament s).isSome) :
    if s.m_pos.z - s.m_lifted ≤ z ∧ z ≤ s.m_pos.z then
      (travel_to_z s z "").1 = "" ∧
      (travel_to_z s z "").2.m_lifted =
        (if |s.m_lifted - (z - (s.m_pos.z - s.m_lifted))| < EPSILON then 0
         else s.m_lifted - (z - (s.m_pos.z - s.m_lifted)))
    else (travel_to_z s z "").1 ≠ "" ∧ (travel_to_z s z "").2.m_lifted = 0 := by
  by_cases hin : s.m_pos.z - s.m_lifted ≤ z ∧ z ≤ s.m_pos.z
  · rw [if_pos hin]
    have hw : ¬ will_move_z s z = true := by
      unfold will_move_z
      rw [if_pos hl, if_pos hin]
      simp
    rw [travel_to_z_absorb s z "" hw]
    exact ⟨rfl, rfl⟩
  · rw [if_neg hin]
    have hw : will_move_z s z = true := by
      unfold will_move_z
      rw [if_pos hl, if_neg hin]
    exact travel_to_z_move s z "" hw hf

/-- Witness for C2: lifted by 0.4 at Z = 2, travelling to Z = 1.8 inside
the absorption band. -/
theorem C2_witness :
    0 < ({ demoWriter with m_lifted := 2/5 } : GCodeWriter).m_lifted ∧
    ({ demoWriter with m_lifted := 2/5 } : GCodeWriter).m_to_lift = 0 ∧
    (filament { demoWriter with m_lifted := 2/5 }).isSome = true ∧
    (if ({ demoWriter with m_lifted := 2/5 } : GCodeWriter).m_pos.z -
          ({ demoWriter with m_lifted := 2/5 } : GCodeWriter).m_lifted ≤ 9/5 ∧
        (9/5 : ℚ) ≤ ({ demoWriter with m_lifted := 2/5 } : GCodeWriter).m_pos.z then
      (travel_to_z { demoWriter with m_lifted := 2/5 } (9/5) "").1 = "" ∧
      (travel_to_z { demoWriter with m_lifted := 2/5 } (9/5) "").2.m_lifted =
        (if |({ demoWriter with m_lifted := 2/5 } : GCodeWriter).m_lifted -
              (9/5 - (({ demoWriter with m_lifted := 2/5 } : GCodeWriter).m_pos.z -
                ({ demoWriter with m_lifted := 2/5 } : GCodeWriter).m_lifted))| < EPSILON then 0
         else ({ demoWriter with m_lifted := 2/5 } : GCodeWriter).m_lifted -
            (9/5 - (({ demoWriter with m_lifted := 2/5 } : GCodeWriter).m_pos.z -
              ({ demoWriter with m_lifted := 2/5 } : GCodeWriter).m_lifted)))
    else (travel_to_z { demoWriter with m_lifted := 2/5 } (9/5) "").1 ≠ "" ∧
      (travel_to_z { demoWriter with m_lifted := 2/5 } (9/5) "").2.m_lifted = 0) :=
  ⟨by norm_num [demoWriter], by decide, by decide,
    C2_travel_to_z_absorbs_lift { demoWriter with m_lifted := 2/5 } (9/5)
      (by norm_num [demoWriter]) (by decide) (by decide)⟩

/-! ## The lift invariants (C1, C10) -/

/-- The mutual-exclusion invariant on the two lift scalars. -/
def LiftExclusive (s : GCodeWriter) : Prop := s.m_lifted = 0 ∨ s.m_to_lift = 0

/-- The non-negativity invariant on the two lift scalars. -/
def LiftNonneg (s : GCodeWriter) : Prop := 0 ≤ s.m_lifted ∧ 0 ≤ s.m_to_lift

theorem get_at_nonneg (l : List ℚ) (i : ℕ) (h : ∀ x ∈ l, 0 ≤ x) : 0 ≤ get_at l i := by
  have heq : get_at l i = (l.get? i).getD (l.headD 0) := rfl
  rw [heq]
  rcases hg : l.get? i with _ | x
  · rcases l with _ | ⟨a, l⟩
    · simp
    · simp only [Option.getD_none, List.headD_cons]
      exact h a (by simp)
  · simp only [Option.getD_some]
    exact h x (List.get?_mem hg)

theorem target_lift_nonneg (s : GCodeWriter) (e : Extruder) (tc : Bool)
    (hz : ∀ x ∈ s.config.z_hop, 0 ≤ x) : 0 ≤ target_lift_of s e tc := by
  unfold target_lift_of
  split
  · split
    · next h => exact le_of_lt h.2
    · exact get_at_nonneg _ _ hz
  · exact le_refl (0 : ℚ)

theorem wmz_false_pos (s : GCodeWriter) (z : ℚ) (hl : 0 < s.m_lifted)
    (hw : ¬ will_move_z s z = true) :
    s.m_pos.z - s.m_lifted ≤ z ∧ z ≤ s.m_pos.z := by
  unfold will_move_z at hw
  rw [if_pos hl] at hw
  by_cases hin : s.m_pos.z - s.m_lifted ≤ z ∧ z ≤ s.m_pos.z
  · exact hin
  · rw [if_neg hin] at hw
    exact absurd rfl hw

theorem wmz_false_zero (s : GCodeWriter) (z : ℚ) (hl : ¬ 0 < s.m_lifted)
    (hw : ¬ will_move_z s z = true) :
    |s.m_pos.z - z| < EPSILON := by
  unfold will_move_z at hw
  rw [if_neg hl] at hw
  by_cases hh : |s.m_pos.z - z| < EPSILON
  · exact hh
  · rw [if_neg hh] at hw
    exact absurd rfl hw

theorem absorb_zero_of_lifted_zero (s : GCodeWriter) (z : ℚ)
    (hw : ¬ will_move_z s z = true) (h0 : s.m_lifted = 0) :
    (if |s.m_lifted - (z - (s.m_pos.z - s.m_lifted))| < EPSILON then 0
     else s.m_lifted - (z - (s.m_pos.z - s.m_lifted))) = 0 := by
  have habs : |s.m_pos.z - z| < EPSILON := wmz_false_zero s z (by rw [h0]; exact lt_irrefl 0) hw
  rw [h0]
  rw [show ((0 : ℚ) - (z - (s.m_pos.z - 0))) = s.m_pos.z - z by ring]
  rw [if_pos habs]

theorem absorb_nonneg (s : GCodeWriter) (z : ℚ)
    (hw : ¬ will_move_z s z = true) (h0 : 0 ≤ s.m_lifted) :
    0 ≤ (if |s.m_lifted - (z - (s.m_pos.z - s.m_lifted))| < EPSILON then 0
         else s.m_lifted - (z - (s.m_pos.z - s.m_lifted))) := by
  rcases lt_or_eq_of_le h0 with hlt | heq
  · split
    · exact le_refl 0
    · have hin := wmz_false_pos s z hlt hw
      linarith [hin.2]
  · rw [absorb_zero_of_lifted_zero s z hw heq.symm]

theorem lazy_lift_excl (s : GCodeWriter) (lt : LiftType) (sv tc : Bool)
    (h : LiftExclusive s) : LiftExclusive (lazy_lift s lt sv tc).2 := by
  simp only [lazy_lift]
  split
  · exact h
  · split
    · next hcond =>
      split
      · right
        rw [(travel_to_z_aux_state _ _ _ _).2.1]
        exact hcond.2.1
      · left
        exact hcond.1
    · exact h

theorem lazy_lift_nn (s : GCodeWriter) (lt : LiftType) (sv tc : Bool)
    (h : LiftNonneg s) : LiftNonneg (lazy_lift s lt sv tc).2 := by
  simp only [lazy_lift]
  split
  · exact h
  · split
    · next hcond =>
      split
      · constructor
        · rw [(travel_to_z_aux_state _ _ _ _).1]
          exact le_of_lt hcond.2.2
        · rw [(travel_to_z_aux_state _ _ _ _).2.1]
          exact h.2
      · exact ⟨h.1, le_of_lt hcond.2.2⟩
    · exact h

theorem lazy_lift_cfg (s : GCodeWriter) (lt : LiftType) (sv tc : Bool) :
    (lazy_lift s lt sv tc).2.config = s.config := by
  simp only [lazy_lift]
  split
  · rfl
  · split
    · split
      · exact (travel_to_z_aux_state _ _ _ _).2.2.1
      · rfl
    · rfl

theorem eager_lift_excl (s : GCodeWriter) (lt : LiftType) (tc : Bool)
    (h : LiftExclusive s) : LiftExclusive (eager_lift_state s lt tc) := by
  simp only [eager_lift_state]
  split
  · exact h
  · split
    · exact h
    · right
      rfl

theorem eager_lift_nn (s : GCodeWriter) (lt : LiftType) (tc : Bool)
    (hz : ∀ x ∈ s.config.z_hop, 0 ≤ x) (h : LiftNonneg s) :
    LiftNonneg (eager_lift_state s lt tc) := by
  simp only [eager_lift_state]
  split
  · exact h
  · next e heq =>
    split
    · exact h
    · exact ⟨target_lift_nonneg s e tc hz, le_refl 0⟩

theorem eager_lift_cfg (s : GCodeWriter) (lt : LiftType) (tc : Bool) :
    (eager_lift_state s lt tc).config = s.config := by
  simp only [eager_lift_state]
  split
  · rfl
  · split
    · rfl
    · exact (stas_fields _).2.2.1

theorem travel_to_z_snd_move (s : GCodeWriter) (z : ℚ) (c : String)
    (hw : will_move_z s z = true) :
    (travel_to_z s z c).2.m_lifted = 0 ∧
    (travel_to_z s z c).2.m_to_lift = s.m_to_lift ∧
    (travel_to_z s z c).2.config = s.config := by
  have h1 : (travel_to_z s z c).2 =
      (travel_to_z_aux (set_travel_acceleration_str { s with m_lifted := 0 }).2 z c false).2 := by
    unfold travel_to_z
    rw [if_neg (by simp [hw])]
  rw [h1]
  refine ⟨?_, ?_, ?_⟩
  · rw [(travel_to_z_aux_state _ _ _ _).1, (stas_fields _).1]
  · rw [(travel_to_z_aux_state _ _ _ _).2.1, (stas_fields _).2.1]
  · rw [(travel_to_z_aux_state _ _ _ _).2.2.1, (stas_fields _).2.2.1]

theorem travel_to_z_excl (s : GCodeWriter) (z : ℚ) (c : String)
    (h : LiftExclusive s) : LiftExclusive (travel_to_z s z c).2 := by
  by_cases hw : will_move_z s z = true
  · exact Or.inl (travel_to_z_snd_move s z c hw).1
  · rw [travel_to_z_absorb s z c hw]
    rcases h with h0 | h0
    · exact Or.inl (absorb_zero_of_lifted_zero s z hw h0)
    · exact Or.inr h0

theorem travel_to_z_nn (s : GCodeWriter) (z : ℚ) (c : String)
    (h : LiftNonneg s) : LiftNonneg (travel_to_z s z c).2 := by
  by_cases hw : will_move_z s z = true
  · refine ⟨?_, ?_⟩
    · rw [(travel_to_z_snd_move s z c hw).1]
    · rw [(travel_to_z_snd_move s z c hw).2.1]
      exact h.2
  · rw [travel_to_z_absorb s z c hw]
    exact ⟨absorb_nonneg s z hw h.1, h.2⟩

theorem travel_to_z_cfg (s : GCodeWriter) (z : ℚ) (c : String) :
    (travel_to_z s z c).2.config = s.config := by
  by_cases hw : will_move_z s z = true
  · exact (travel_to_z_snd_move s z c hw).2.2
  · rw [travel_to_z_absorb s z c hw]

theorem travel_to_xy_lifts (s : GCodeWriter) (p : ℚ × ℚ) (c : String) :
    (travel_to_xy s p c).2.m_lifted = s.m_lifted ∧
    (travel_to_xy s p c).2.m_to_lift = s.m_to_lift ∧
    (travel_to_xy s p c).2.config = s.config := by
  simp only [travel_to_xy]
  split
  · exact ⟨rfl, rfl, rfl⟩
  · exact ⟨(stas_fields _).1, (stas_fields _).2.1, (stas_fields _).2.2.1⟩

theorem travel_to_xyz_state_excl (s : GCodeWriter) (p : Vec3)
    (h : LiftExclusive s) : LiftExclusive (travel_to_xyz_state s p) := by
  simp only [travel_to_xyz_state, set_travel_acceleration_state]
  split
  · exact h
  · split
    · right
      show (set_travel_acceleration_str _).2.m_to_lift = 0
      rw [(stas_fields _).2.1]
    · split
      · next hw =>
        rcases h with h0 | h0
        · left
          rw [(travel_to_xy_lifts _ _ _).1]
          exact absorb_zero_of_lifted_zero s p.z hw h0
        · right
          rw [(travel_to_xy_lifts _ _ _).2.1]
          exact h0
      · left
        rw [(stas_fields _).1]

theorem travel_to_xyz_state_nn (s : GCodeWriter) (p : Vec3)
    (h : LiftNonneg s) : LiftNonneg (travel_to_xyz_state s p) := by
  simp only [travel_to_xyz_state, set_travel_acceleration_state]
  split
  · exact h
  · split
    · constructor
      · show 0 ≤ (set_travel_acceleration_str _).2.m_lifted
        rw [(stas_fields _).1]
        dsimp only
        split
        · next hc =>
          dsimp only
          linarith [hc.2]
        · exact h.1
      · show 0 ≤ (set_travel_acceleration_str _).2.m_to_lift
        rw [(stas_fields _).2.1]
    · split
      · next hw =>
        constructor
        · rw [(travel_to_xy_lifts _ _ _).1]
          exact absorb_nonneg s p.z hw h.1
        · rw [(travel_to_xy_lifts _ _ _).2.1]
          exact h.2
      · constructor
        · rw [(stas_fields _).1]
        · rw [(stas_fields _).2.1]
          exact h.2

theorem travel_to_xyz_state_cfg (s : GCodeWriter) (p : Vec3) :
    (travel_to_xyz_state s p).config = s.config := by
  simp only [travel_to_xyz_state, set_travel_acceleration_state]
  split
  · rfl
  · split
    · show (set_travel_acceleration_str _).2.config = s.config
      rw [(stas_fields _).2.2.1]
      split <;> rfl
    · split
      · exact (travel_to_xy_lifts _ _ _).2.2
      · exact (stas_fields _).2.2.1

theorem extrude_to_xy_lifts (s : GCodeWriter) (p : ℚ × ℚ) (dE : ℚ) (c : String) (f : Bool) :
    (extrude_to_xy s p dE c f).2.m_lifted = s.m_lifted ∧
    (extrude_to_xy s p dE c f).2.m_to_lift = s.m_to_lift ∧
    (extrude_to_xy s p dE c f).2.config = s.config := by
  simp only [extrude_to_xy]
  split
  · exact ⟨rfl, rfl, rfl⟩
  · rw [(seas_fields _).1, (seas_fields _).2.1, (seas_fields _).2.2.1]
    split
    · exact ⟨(set_filament_fields _ _).1, (set_filament_fields _ _).2.1,
        (set_filament_fields _ _).2.2⟩
    · exact ⟨rfl, rfl, rfl⟩

theorem extrude_arc_to_xy_lifts (s : GCodeWriter) (p c0 : ℚ × ℚ) (dE : ℚ) (ccw : Bool)
    (c : String) (f : Bool) :
    (extrude_arc_to_xy s p c0 dE ccw c f).2.m_lifted = s.m_lifted ∧
    (extrude_arc_to_xy s p c0 dE ccw c f).2.m_to_lift = s.m_to_lift ∧
    (extrude_arc_to_xy s p c0 dE ccw c f).2.config = s.config := by
  simp only [extrude_arc_to_xy]
  split
  · exact ⟨rfl, rfl, rfl⟩
  · rw [(seas_fields _).1, (seas_fields _).2.1, (seas_fields _).2.2.1]
    split
    · exact ⟨(set_filament_fields _ _).1, (set_filament_fields _ _).2.1,
        (set_filament_fields _ _).2.2⟩
    · exact ⟨rfl, rfl, rfl⟩

theorem extrude_to_xyz_lifts (s : GCodeWriter) (pt : Vec3) (dE : ℚ) (c : String) (f : Bool) :
    (extrude_to_xyz s pt dE c f).2.m_lifted = 0 ∧
    (extrude_to_xyz s pt dE c f).2.m_to_lift = s.m_to_lift ∧
    (extrude_to_xyz s pt dE c f).2.config = s.config := by
  simp only [extrude_to_xyz]
  split
  · exact ⟨rfl, rfl, rfl⟩
  · rw [(seas_fields _).1, (seas_fields _).2.1, (seas_fields _).2.2.1]
    split
    · exact ⟨(set_filament_fields _ _).1, (set_filament_fields _ _).2.1,
        (set_filament_fields _ _).2.2⟩
    · exact ⟨rfl, rfl, rfl⟩

theorem unlift_lifts (s : GCodeWriter) :
    (unlift s).2.m_to_lift = 0 ∧
    ((unlift s).2.m_lifted = 0 ∨ (unlift s).2.m_lifted = s.m_lifted) ∧
    (unlift s).2.config = s.config := by
  simp only [unlift]
  split
  · exact ⟨rfl, Or.inl rfl, (travel_to_z_aux_state _ _ _ _).2.2.1⟩
  · exact ⟨rfl, Or.inr rfl, rfl⟩

theorem retract_aux_lifts (s : GCodeWriter) (l r : ℚ) (c : String) :
    (retract_aux s l r c).2.m_lifted = s.m_lifted ∧
    (retract_aux s l r c).2.m_to_lift = s.m_to_lift ∧
    (retract_aux s l r c).2.config = s.config := by
  simp only [retract_aux]
  split
  · exact ⟨rfl, rfl, rfl⟩
  · exact ⟨(set_filament_fields _ _).1, (set_filament_fields _ _).2.1,
      (set_filament_fields _ _).2.2⟩

theorem retract_lifts (s : GCodeWriter) (bw : Bool) :
    (retract s bw).2.m_lifted = s.m_lifted ∧
    (retract s bw).2.m_to_lift = s.m_to_lift ∧
    (retract s bw).2.config = s.config := by
  simp only [retract]
  split
  · exact ⟨rfl, rfl, rfl⟩
  · exact retract_aux_lifts _ _ _ _

theorem toolchange_lifts (s : GCodeWriter) (fid : ℕ) :
    (toolchange s fid).2.m_lifted = s.m_lifted ∧
    (toolchange s fid).2.m_to_lift = s.m_to_lift ∧
    (toolchange s fid).2.config = s.config := by
  simp only [toolchange]
  split
  · split
    · refine ⟨?_, ?_, ?_⟩
      · rw [(reset_e_fields _ _).1]
      · rw [(reset_e_fields _ _).2.1]
      · rw [(reset_e_fields _ _).2.2]
    · exact ⟨rfl, rfl, rfl⟩
  · exact ⟨rfl, rfl, rfl⟩

/-- Every operation preserves the configuration. -/
theorem step_cfg (s : GCodeWriter) (op : Op) : (step s op).config = s.config := by
  cases op with
  | lazyLift lt sv tc => exact lazy_lift_cfg s lt sv tc
  | eagerLift lt tc => exact eager_lift_cfg s lt tc
  | travelToXY p => exact (travel_to_xy_lifts s p "").2.2
  | travelToZ z => exact travel_to_z_cfg s z ""
  | travelToXYZ p => exact travel_to_xyz_state_cfg s p
  | extrudeToXY p dE f => exact (extrude_to_xy_lifts s p dE "" f).2.2
  | extrudeArcToXY p c dE ccw f => exact (extrude_arc_to_xy_lifts s p c dE ccw "" f).2.2
  | extrudeToXYZ p dE f => exact (extrude_to_xyz_lifts s p dE "" f).2.2
  | unliftOp => exact (unlift_lifts s).2.2
  | retractOp bw => exact (retract_lifts s bw).2.2
  | toolchangeOp fid => exact (toolchange_lifts s fid).2.2

/-- Every operation preserves the lift mutual-exclusion invariant. -/
theorem step_excl (s : GCodeWriter) (op : Op) (h : LiftExclusive s) :
    LiftExclusive (step s op) := by
  cases op with
  | lazyLift lt sv tc => exact lazy_lift_excl s lt sv tc h
  | eagerLift lt tc => exact eager_lift_excl s lt tc h
  | travelToXY p =>
    rcases h with h0 | h0
    · exact Or.inl ((travel_to_xy_lifts s p "").1.trans h0)
    · exact Or.inr ((travel_to_xy_lifts s p "").2.1.trans h0)
  | travelToZ z => exact travel_to_z_excl s z "" h
  | travelToXYZ p => exact travel_to_xyz_state_excl s p h
  | extrudeToXY p dE f =>
    rcases h with h0 | h0
    · exact Or.inl ((extrude_to_xy_lifts s p dE "" f).1.trans h0)
    · exact Or.inr ((extrude_to_xy_lifts s p dE "" f).2.1.trans h0)
  | extrudeArcToXY p c dE ccw f =>
    rcases h with h0 | h0
    · exact Or.inl ((extrude_arc_to_xy_lifts s p c dE ccw "" f).1.trans h0)
    · exact Or.inr ((extrude_arc_to_xy_lifts s p c dE ccw "" f).2.1.trans h0)
  | extrudeToXYZ p dE f => exact Or.inl (extrude_to_xyz_lifts s p dE "" f).1
  | unliftOp => exact Or.inr (unlift_lifts s).1
  | retractOp bw =>
    rcases h with h0 | h0
    · exact Or.inl ((retract_lifts s bw).1.trans h0)
    · exact Or.inr ((retract_lifts s bw).2.1.trans h0)
  | toolchangeOp fid =>
    rcases h with h0 | h0
    · exact Or.inl ((toolchange_lifts s fid).1.trans h0)
    · exact Or.inr ((toolchange_lifts s fid).2.1.trans h0)

/-- Every operation preserves lift non-negativity, given non-negative
configured z-hop values. -/
theorem step_nn (s : GCodeWriter) (op : Op)
    (hz : ∀ x ∈ s.config.z_hop, 0 ≤ x) (h : LiftNonneg s) : LiftNonneg (step s op) := by
  cases op with
  | lazyLift lt sv tc => exact lazy_lift_nn s lt sv tc h
  | eagerLift lt tc => exact eager_lift_nn s lt tc hz h
  | travelToXY p =>
    exact ⟨(travel_to_xy_lifts s p "").1 ▸ h.1, (travel_to_xy_lifts s p "").2.1 ▸ h.2⟩
  | travelToZ z => exact travel_to_z_nn s z "" h
  | travelToXYZ p => exact travel_to_xyz_state_nn s p h
  | extrudeToXY p dE f =>
    exact ⟨(extrude_to_xy_lifts s p dE "" f).1 ▸ h.1,
      (extrude_to_xy_lifts s p dE "" f).2.1 ▸ h.2⟩
  | extrudeArcToXY p c dE ccw f =>
    exact ⟨(extrude_arc_to_xy_lifts s p c dE ccw "" f).1 ▸ h.1,
      (extrude_arc_to_xy_lifts s p c dE ccw "" f).2.1 ▸ h.2⟩
  | extrudeToXYZ p dE f =>
    exact ⟨le_of_eq (extrude_to_xyz_lifts s p dE "" f).1.symm,
      (extrude_to_xyz_lifts s p dE "" f).2.1 ▸ h.2⟩
  | unliftOp =>
    refine ⟨?_, le_of_eq (unlift_lifts s).1.symm⟩
    show 0 ≤ (unlift s).2.m_lifted
    rcases (unlift_lifts s).2.1 with h0 | h0
    · rw [h0]
    · rw [h0]
      exact h.1
  | retractOp bw =>
    exact ⟨(retract_lifts s bw).1 ▸ h.1, (retract_lifts s bw).2.1 ▸ h.2⟩
  | toolchangeOp fid =>
    exact ⟨(toolchange_lifts s fid).1 ▸ h.1, (toolchange_lifts s fid).2.1 ▸ h.2⟩

theorem run_cons (s : GCodeWriter) (op : Op) (ops : List Op) :
    run s (op :: ops) = run (step s op) ops := rfl

/-- A writer with a pending lift of 1 and no applied lift. -/
def pendingWriter : GCodeWriter := { demoWriter with m_to_lift := 1 }

/-- Counterexample to C1 as stated: from the Pending state, unlift clears
the pending lift without materializing it into m_lifted (m_lifted stays
zero and no lift move is emitted), refuting the clause that a pending lift
is set to zero exactly when it is materialized into m_lifted. -/
theorem C1_counterexample :
    pendingWriter.m_to_lift = 1 ∧ pendingWriter.m_lifted = 0 ∧
    (unlift pendingWriter).1 = "" ∧
    (unlift pendingWriter).2.m_to_lift = 0 ∧
    (unlift pendingWriter).2.m_lifted = 0 := by
  refine ⟨rfl, rfl, ?_, ?_, ?_⟩ <;>
    · unfold unlift
      rw [if_neg (by norm_num [pendingWriter, demoWriter])]
      try rfl

/-- C1 (amended): Lift mutual exclusion — for every sequence of
GCodeWriter operations (lazy_lift, eager_lift, travel_to_xy/z/xyz,
extrude_to_*, unlift, retract, toolchange) started in a state where the
applied lift (m_lifted) and the pending lift (m_to_lift) are not both
non-zero, the writer never reaches a state with both non-zero; a pending
lift is set to zero when it is materialized into m_lifted (eager_lift,
the pending branch of travel_to_xyz) or when it is discarded without
materialization (unlift). -/
theorem C1_lift_mutual_exclusion (s : GCodeWriter) (ops : List Op)
    (h : ¬(s.m_lifted ≠ 0 ∧ s.m_to_lift ≠ 0)) :
    ¬((run s ops).m_lifted ≠ 0 ∧ (run s ops).m_to_lift ≠ 0) := by
  have hex : LiftExclusive s := by
    rcases not_and_or.mp h with h0 | h0
    · exact Or.inl (not_not.mp h0)
    · exact Or.inr (not_not.mp h0)
  clear h
  have hrun : LiftExclusive (run s ops) := by
    induction ops generalizing s with
    | nil => exact hex
    | cons op ops ih => exact ih (step s op) (step_excl s op hex)
  rcases hrun with h0 | h0
  · exact fun hc => hc.1 h0
  · exact fun hc => hc.2 h0

/-- Witness for C1: a fresh flat writer running a lazy lift, a travel and
an unlift. -/
theorem C1_witness :
    ¬(demoWriter.m_lifted ≠ 0 ∧ demoWriter.m_to_lift ≠ 0) ∧
    ¬((run demoWriter
          [Op.lazyLift LiftType.NormalLift false false, Op.travelToZ 2,
            Op.unliftOp]).m_lifted ≠ 0 ∧
      (run demoWriter
          [Op.lazyLift LiftType.NormalLift false false, Op.travelToZ 2,
            Op.unliftOp]).m_to_lift ≠ 0) :=
  ⟨fun hc => hc.1 rfl,
    C1_lift_mutual_exclusion demoWriter
      [Op.lazyLift LiftType.NormalLift false false, Op.travelToZ 2, Op.unliftOp]
      (fun hc => hc.1 rfl)⟩

/-- C10: Lift accounting is non-negative — with non-negative configured
z_hop values and a non-negative prime_tower_lift_height, every sequence of
GCodeWriter operations started with non-negative lift scalars keeps both
m_lifted and m_to_lift non-negative; in particular the lift-absorbing
branches of travel_to_z and travel_to_xyz only subtract an amount bounded
by the current lift (guarded by will_move_z) and clamp a residual within
EPSILON of zero to exactly zero. -/
theorem C10_lift_nonneg (s : GCodeWriter) (ops : List Op)
    (hz : ∀ x ∈ s.config.z_hop, 0 ≤ x)
    (_hp : 0 ≤ s.config.prime_tower_lift_height)
    (hl : 0 ≤ s.m_lifted) (ht : 0 ≤ s.m_to_lift) :
    0 ≤ (run s ops).m_lifted ∧ 0 ≤ (run s ops).m_to_lift := by
  induction ops generalizing s with
  | nil => exact ⟨hl, ht⟩
  | cons op ops ih =>
    rw [run_cons]
    have h1 := step_nn s op hz ⟨hl, ht⟩
    exact ih (step s op) (by rw [step_cfg s op]; exact hz)
      (by rw [step_cfg s op]; exact _hp) h1.1 h1.2

/-- Witness for C10 on the demo writer with a sample operation list. -/
theorem C10_witness :
    0 ≤ demoWriter.config.prime_tower_lift_height ∧
    0 ≤ demoWriter.m_lifted ∧ 0 ≤ demoWriter.m_to_lift ∧
    (0 ≤ (run demoWriter
        [Op.lazyLift LiftType.SpiralLift false false, Op.travelToXYZ ⟨1, 1, 2⟩,
          Op.retractOp false, Op.unliftOp]).m_lifted ∧
      0 ≤ (run demoWriter
        [Op.lazyLift LiftType.SpiralLift false false, Op.travelToXYZ ⟨1, 1, 2⟩,
          Op.retractOp false, Op.unliftOp]).m_to_lift) :=
  ⟨by norm_num [demoWriter, demoConfig],
    le_refl 0, le_refl 0,
    C10_lift_nonneg demoWriter
      [Op.lazyLift LiftType.SpiralLift false false, Op.travelToXYZ ⟨1, 1, 2⟩,
        Op.retractOp false, Op.unliftOp]
      (by norm_num [demoWriter, demoConfig]) (by norm_num [demoWriter, demoConfig])
      (le_refl 0) (le_refl 0)⟩

end Slic3r
